import Mathlib

/-!
Verification of the sagedev developer-workflow orchestrator
(`src/sage/dev/sagedev.py`): the ticket/branch registry, the naming and
validation layer, the working-tree guard, the checkout engine, `abandon`,
`merge` and `push`.

The Python source is embedded shallowly: the registry maps become
association lists, the commit graph is a finite map from branch names to
commit identifiers together with an abstract ancestry predicate, user
interaction is passed in as explicit answer records, and Python
exceptions become an `Except` whose error value carries the state at the
moment of the raise (so that mutations made before a raise are visible).
Where a definition models a line that is absent from the source extract,
its doc comment says so and cites the specification text it follows.
-/

set_option autoImplicit false

namespace SageDev


/-! ## Association-list registries

The four persisted maps of the registry store (ticket to branch, branch
to ticket, branch to remote branch, ticket to dependencies) are
association lists with first-match lookup. -/

def lookupKV {α β : Type} [BEq α] : List (α × β) → α → Option β
  | [], _ => none
  | (k, v) :: r, a => if k == a then some v else lookupKV r a

def setKV {α β : Type} [BEq α] : List (α × β) → α → β → List (α × β)
  | [], a, b => [(a, b)]
  | (k, v) :: r, a, b => if k == a then (a, b) :: r else (k, v) :: setKV r a b

def eraseKV {α β : Type} [BEq α] : List (α × β) → α → List (α × β)
  | [], _ => []
  | (k, v) :: r, a => if k == a then eraseKV r a else (k, v) :: eraseKV r a

/-! ## Naming and validation

`GIT_BRANCH_REGEX` (sagedev.py lines 11-13) restricts branch names to
git's legal reference grammar:
`^(?!.*/\.)(?!.*\.\.)(?!/)(?!.*//)(?!.*@\x7b)(?!.*\\)`
`[^\040\177 ~^:?*[]+(?<!\.lock)(?<!/)(?<!\.)$`.
It is unfolded here over the character list of the name. -/

def okChar (c : Char) : Bool :=
  !(c == ' ' || c == Char.ofNat 127 || c == '~' || c == '^' || c == ':' ||
    c == '?' || c == '*' || c == '[' || c == Char.ofNat 92)

def badPair (a b : Char) : Bool :=
  (a == '/' && b == '.') || (a == '.' && b == '.') ||
  (a == '/' && b == '/') || (a == '@' && b == Char.ofNat 123)

def noBadPairs : List Char → Bool
  | [] => true
  | [_] => true
  | a :: b :: r => !(badPair a b) && noBadPairs (b :: r)

/-- The trailing-context checks of the regex: the name must not end in
`.lock`, `/` or `.`; phrased on the reversed character list. -/
def okTail (cs : List Char) : Bool :=
  match cs.reverse with
  | [] => false
  | c :: r =>
    !(c == '/') && !(c == '.') &&
    !(c == 'k' && r.take 4 == ['c', 'o', 'l', '.'])

def gitBranchNameOk (s : String) : Bool :=
  !s.data.isEmpty && s.data.all okChar && noBadPairs s.data &&
  !(s.data.head? == some '/') && okTail s.data

/-! Ticket names (`_ticket_from_ticket_name`, sagedev.py around lines
2996-3005): a string is a ticket name when, after removing one leading
`#`, Python's `int()` accepts it and the value is not negative. -/

def digitsToNat (cs : List Char) : Nat :=
  cs.foldl (fun n c => 10 * n + (c.toNat - 48)) 0

/-- Python `int(str)`: surrounding spaces are ignored, one optional sign,
then at least one decimal digit. -/
def pyIntParse (s : String) : Option Int :=
  match ((s.data.dropWhile (· == ' ')).reverse.dropWhile (· == ' ')).reverse with
  | [] => none
  | c :: rest =>
    if c == '-' then
      if rest ≠ [] ∧ rest.all Char.isDigit then some (-(digitsToNat rest : Int)) else none
    else if c == '+' then
      if rest ≠ [] ∧ rest.all Char.isDigit then some (digitsToNat rest : Int) else none
    else if (c :: rest).all Char.isDigit then some (digitsToNat (c :: rest) : Int)
    else none

/-- Models `_ticket_from_ticket_name` on a string argument: strips one leading
`#`, parses the integer, and rejects negative values; `none` models the
`SageDevValueError` raise. -/
def ticket_from_ticket_name (name : String) : Option Nat :=
  match pyIntParse (if name ≠ "" ∧ name.data.head? = some '#' then name.drop 1 else name) with
  | none => none
  | some k => if k < 0 then none else some k.toNat

/-- Models `_is_ticket_name(name, exists=False)` for a string argument. -/
def is_ticket_name (name : String) : Bool :=
  (ticket_from_ticket_name name).isSome

/-! ## The state of the tool

Commits are abstract identifiers (`Nat`); the commit graph enters only
through an ancestry predicate `isAncestor a b` ("`a` is an ancestor of
`b`", git `merge-base --is-ancestor`) passed to the operations that
query it.  The registry maps mirror the four persisted dictionaries of
sagedev (lines 50-61); `tracField`, `tracDeps` and `tracTickets` model
the remote trac server, `remoteRefs` the remote git repository. -/

structure DevState where
  /-- local branch name to head commit -/
  localBranches : List (String × Nat)
  /-- `None` models a detached HEAD -/
  currentBranch : Option String
  /-- commit checked out while detached -/
  detachedHead : Option Nat
  /-- uncommitted changes to tracked files present -/
  dirty : Bool
  /-- backend mid-merge marker present -/
  merging : Bool
  /-- ticket to local branch (`ticket_to_branch`); the branch-to-ticket
  direction of the BranchTicketLink is read off the same pairs -/
  ticketBranch : List (Nat × String)
  /-- ticket to locally recorded dependency list (`dependencies`) -/
  deps : List (Nat × List Nat)
  /-- local branch to remote branch name (`remote_branches`) -/
  remoteOf : List (String × String)
  /-- remote repository: remote branch name to head commit -/
  remoteRefs : List (String × Nat)
  /-- trac: branch field of each ticket -/
  tracField : List (Nat × String)
  /-- trac: dependency list of each ticket -/
  tracDeps : List (Nat × List Nat)
  /-- trac: tickets that exist -/
  tracTickets : List Nat
  /-- log of the messages passed to `_UI.error` (observation only) -/
  uiErrors : List String
  deriving Repr, DecidableEq

/-- The error taxonomy: `SageDevValueError`, `OperationCancelledError`
and `GitError` from the source; `diverged` is the spec's `Diverged`
refusal of a branch-field overwrite. -/
inductive DevError where
  | sageDevValueError (msg : String)
  | operationCancelled (msg : String)
  | gitError (msg : String)
  | diverged (msg : String)
  deriving Repr, DecidableEq

/-- Python exceptions: a raise carries the state at the moment of the
raise, so that mutations made before an exception stay observable. -/
abbrev DevM (α : Type) : Type := Except (DevState × DevError) α

/-- Constant `MASTER_BRANCH`: the literal is not retained in the extract; the
doctests (for example lines 1711, 1724, 1782 and the `tickets` output
`: master`) fix it to the string `master`. -/
def MASTER_BRANCH : String := "master"

/-- Models `_is_local_branch_name(name, exists)` (sagedev.py around lines
3006-3014): the name must match the git branch grammar, must not be a
ticket name ("branches which could be tickets are calling for trouble -
cowardly refuse to accept them", line 3010) and must not be one of the
literals `None`, `True`, `False`, `dependencies` (line 3013); `ex` is
`some true` for `exists=True`, `some false` for `exists=False`, `none`
for `exists=any`. -/
def is_local_branch_name (branches : List (String × Nat)) (name : String)
    (ex : Option Bool) : Bool :=
  if !gitBranchNameOk name then false
  else if is_ticket_name name then false
  else if name == "None" || name == "True" || name == "False" || name == "dependencies" then
    false
  else
    match ex with
    | some true => (lookupKV branches name).isSome
    | some false => (lookupKV branches name).isNone
    | none => true

/-- Models Python `p.startswith(q)` on character lists, arguments flipped. -/
def leadsWith : List Char → List Char → Bool
  | [], _ => true
  | _ :: _, [] => false
  | a :: p, b :: q => a == b && leadsWith p q

/-- Models `_is_trash_name(name, exists)` (sagedev.py around lines 3015-3029):
a valid local branch name starting with `trash/`, with the existence
mode passed through. -/
def is_trash_name (branches : List (String × Nat)) (name : String)
    (ex : Option Bool) : Bool :=
  if !is_local_branch_name branches name none then false
  else if !(leadsWith "trash/".data name.data) then false
  else is_local_branch_name branches name ex

/-! ## Fresh branch names

`_new_local_branch_for_trash` (sagedev.py lines 3184-3197) appends `_`
to the branch name until `trash/<name>` does not exist.  The unbounded
Python `while True:` loop is given `branches.length + 1` units of fuel;
`trash_loop_finds_fresh` below shows the guard is reached within that
bound, so the fuel never changes the result. -/

def underscored : String → Nat → String
  | b, 0 => b
  | b, Nat.succ k => underscored (b ++ "_") k

def new_local_branch_for_trash_loop (branches : List (String × Nat)) :
    Nat → String → String
  | 0, b => "trash/" ++ b
  | Nat.succ n, b =>
    if is_trash_name branches ("trash/" ++ b) (some false) then "trash/" ++ b
    else new_local_branch_for_trash_loop branches n (b ++ "_")

def new_local_branch_for_trash (branches : List (String × Nat)) (branch : String) :
    String :=
  new_local_branch_for_trash_loop branches (branches.length + 1) branch

/-- Models `_new_local_branch_for_ticket`.  Modelled from the spec: the body is
absent from the source extract; the spec asks for "a new branch name
(default pattern derived from the ticket id)" and the doctests show the
pattern `ticket/<id>`; collisions are resolved like trash names. -/
def new_local_branch_for_ticket_loop (branches : List (String × Nat)) :
    Nat → String → String
  | 0, b => b
  | Nat.succ n, b =>
    if is_local_branch_name branches b (some false) then b
    else new_local_branch_for_ticket_loop branches n (b ++ "_")

def new_local_branch_for_ticket (branches : List (String × Nat)) (ticket : Nat) :
    String :=
  new_local_branch_for_ticket_loop branches (branches.length + 1)
    ("ticket/" ++ toString ticket)

/-! ## Registry accessors

The `ticket_to_branch` and `branch_to_ticket` dictionaries are embedded
as one pair list read in both directions, following the spec (section 3:
the BranchTicketLink is one bidirectional relation; design note: "a
single module owning both maps behind one mutation API"). -/

def ticket_for_local_branch (st : DevState) (branch : String) : Option Nat :=
  match st.ticketBranch.find? (fun p => p.2 == branch) with
  | some p => some p.1
  | none => none

def has_ticket_for_local_branch (st : DevState) (branch : String) : Bool :=
  (ticket_for_local_branch st branch).isSome

def local_branch_for_ticket (st : DevState) (ticket : Nat) : Option String :=
  lookupKV st.ticketBranch ticket

/-- Models `_has_local_branch_for_ticket` (sagedev.py around lines 3131-3137):
the stored branch must also exist locally.  The source additionally
deletes a dangling link with a warning (line 3134); that self-healing
write is not modelled - under the hypotheses of the theorems below the
link is never dangling. -/
def has_local_branch_for_ticket (st : DevState) (ticket : Nat) : Bool :=
  match local_branch_for_ticket st ticket with
  | some b => is_local_branch_name st.localBranches b (some true)
  | none => false

/-- Models `_set_local_branch_for_ticket(ticket, branch)`.  Modelled from the
spec: the body is absent from the extract; spec section 3, a `None`
value clears the BranchTicketLink (used by `abandon`, line 1820). -/
def set_local_branch_for_ticket (st : DevState) (ticket : Nat)
    (branch : Option String) : DevState :=
  match branch with
  | none => { st with ticketBranch := eraseKV st.ticketBranch ticket }
  | some b => { st with ticketBranch := setKV st.ticketBranch ticket b }

/-- Models `_dependencies_for_ticket`: the stored tuple, `()` if absent
(spec section 8 round-trip). -/
def dependencies_for_ticket (st : DevState) (ticket : Nat) : List Nat :=
  (lookupKV st.deps ticket).getD []

/-- Models `_set_dependencies_for_ticket(ticket, ds)`.  Modelled from the spec
(section 8 round-trip): `None` clears the entry (used by `abandon`,
line 1821). -/
def set_dependencies_for_ticket (st : DevState) (ticket : Nat)
    (ds : Option (List Nat)) : DevState :=
  match ds with
  | none => { st with deps := eraseKV st.deps ticket }
  | some l => { st with deps := setKV st.deps ticket l }

/-- Models `_current_ticket`: the ticket bound to the current branch. -/
def current_ticket (st : DevState) : Option Nat :=
  match st.currentBranch with
  | none => none
  | some b => ticket_for_local_branch st b

/-- Models `_is_remote_branch_name(name, exists)` (sagedev.py around lines
3030-3036): same grammar and ticket-name refusal as local names
(line 3033-3035), existence via `ls-remote` (line 3036). -/
def is_remote_branch_name (st : DevState) (name : String) (ex : Option Bool) : Bool :=
  if !gitBranchNameOk name then false
  else if is_ticket_name name then false
  else
    match ex with
    | some true => (lookupKV st.remoteRefs name).isSome
    | some false => (lookupKV st.remoteRefs name).isNone
    | none => true

/-- Models `_remote_branch_for_ticket`.  Modelled from the spec: the body is
absent from the extract; spec 4.6, "a per-user default derived from the
branch name", overridden by a recorded RemoteBranchLink. -/
def remote_branch_for_ticket (st : DevState) (ticket : Nat) : String :=
  match local_branch_for_ticket st ticket with
  | some b => (lookupKV st.remoteOf b).getD ("u/user/ticket/" ++ toString ticket)
  | none => "u/user/ticket/" ++ toString ticket

/-! ## Working-tree guard -/

inductive ResetSel where
  | reset | cancel
  deriving Repr, DecidableEq

inductive CleanSel where
  | discard | cancelOrKeep | stash
  deriving Repr, DecidableEq

/-- Models `reset_to_clean_state(error_unless_clean)` (sagedev.py lines
1205-1249): a no-op when the backend is idle (the idle early return is
absent from the extract; spec 4.3), else a `reset`/`cancel` choice where
`reset` discards the merge state and any uncommitted changes and
`cancel` raises only when `error_unless_clean`. -/
def reset_to_clean_state (rsel : ResetSel) (errorUnlessClean : Bool)
    (st : DevState) : DevM DevState :=
  if !st.merging then .ok st
  else
    match rsel with
    | .reset => .ok { st with merging := false, dirty := false }
    | .cancel =>
      if errorUnlessClean then .error (st, .operationCancelled "will not reset")
      else .ok st

/-- Models `clean(error_unless_clean)` (sagedev.py lines 1250-1303): after
`reset_to_clean_state`, a no-op when no tracked file is modified (the
early return is absent from the extract; visible in the doctest at line
1270 and spec 4.3 "If Clean, is a no-op"); otherwise a
`discard`/`cancel`-or-`keep`/`stash` choice (line 1294: the middle
option is `cancel` exactly when `error_unless_clean`, else `keep`). -/
def clean (rsel : ResetSel) (csel : CleanSel) (errorUnlessClean : Bool)
    (st : DevState) : DevM DevState :=
  match reset_to_clean_state rsel errorUnlessClean st with
  | .error e => .error e
  | .ok st1 =>
    if !st1.dirty then .ok st1
    else
      match csel with
      | .discard => .ok { st1 with dirty := false }
      | .cancelOrKeep =>
        if errorUnlessClean then
          .error (st1, .operationCancelled "User requested not to clean the working directory.")
        else .ok st1
      | .stash => .ok { st1 with dirty := false }

/-- Models `commit_for_ref` at `HEAD`: the head commit of the current branch, or
the detached commit. -/
def commit_for_ref_head (st : DevState) : Option Nat :=
  match st.currentBranch with
  | some b => lookupKV st.localBranches b
  | none => st.detachedHead

/-- Models `checkout_branch(branch)` (sagedev.py lines 523-706): validate the
branch (the check line is absent from the extract; the doctest at line
554-555 shows the `does not exist locally` failure), reset to a clean
state, then `clean` with `error_unless_clean` exactly when the target
commit differs from the current commit (line 699), then switch.  The
`except` blocks only report and re-raise. -/
def checkout_branch (rsel : ResetSel) (csel : CleanSel) (st : DevState)
    (branch : String) : DevM DevState :=
  if !is_local_branch_name st.localBranches branch (some true) then
    .error (st, .sageDevValueError "Branch does not exist locally.")
  else
    match reset_to_clean_state rsel true st with
    | .error e => .error e
    | .ok st1 =>
      match clean rsel csel (commit_for_ref_head st1 != lookupKV st1.localBranches branch) st1 with
      | .error e => .error e
      | .ok st2 => .ok { st2 with currentBranch := some branch, detachedHead := none }

/-! ## `abandon` -/

/-- Models `abandon(ticket_or_branch)` (sagedev.py lines 1791-1825) for a
branch-name argument (a branch name is never a ticket name, so the
lines 1792-1796 ticket path does not fire).  Order as in the source:
existence/validity check (line 1797 checks it inside
`_has_ticket_for_local_branch`, line 1801 via `_check_local_branch_name`;
an invalid or unknown name raises either way before any mutation), the
master guard (lines 1802-1804, `_UI.error("Cannot delete the master
branch.")` then `OperationCancelledError("protecting the user")`), the
current-branch guard (lines 1807-1811), the rename to a fresh trash name
(lines 1814-1815), and finally clearing the link and the dependencies
(lines 1819-1821). -/
def abandon (st : DevState) (branch : String) : DevM DevState :=
  if !is_local_branch_name st.localBranches branch (some true) then
    .error (st, .sageDevValueError "ticket_or_branch must be the name of a ticket or a local branch")
  else
    let ticket? := ticket_for_local_branch st branch
    if branch == MASTER_BRANCH then
      .error ({ st with uiErrors := st.uiErrors ++ ["Cannot delete the master branch."] },
        .operationCancelled "protecting the user")
    else if st.currentBranch == some branch then
      .error ({ st with uiErrors := st.uiErrors ++
          ["Cannot delete \"" ++ branch ++ "\": is the current branch."] },
        .operationCancelled "can not delete current branch")
    else
      let newBranch := new_local_branch_for_trash st.localBranches branch
      let commit := (lookupKV st.localBranches branch).getD 0
      let st1 := { st with
        localBranches := setKV (eraseKV st.localBranches branch) newBranch commit }
      match ticket? with
      | some t =>
        .ok (set_dependencies_for_ticket (set_local_branch_for_ticket st1 t none) t none)
      | none => .ok st1

/-! ## The checkout engine -/

/-- The `base` argument of `checkout_ticket`: the empty string, `None`,
or an explicit ticket/branch reference. -/
inductive BaseArg where
  | emptyStr | noneArg | ref (s : String)
  deriving Repr, DecidableEq

def baseIsMaster : BaseArg → Bool
  | .ref s => s == MASTER_BRANCH
  | _ => false

/-- Answers to the prompts a checkout can raise. -/
structure CheckoutUI where
  confirmFresh : Bool
  rsel : ResetSel
  csel : CleanSel
  deriving Repr, DecidableEq

/-- Models `git branch <name> <start>`: fails when the name is not a legal git
reference, already exists, or the start point is unknown. -/
def git_branch (st : DevState) (name start : String) : DevM DevState :=
  if !gitBranchNameOk name then .error (st, .gitError "not a valid ref name")
  else if (lookupKV st.localBranches name).isSome then
    .error (st, .gitError "branch already exists")
  else
    match lookupKV st.localBranches start with
    | none => .error (st, .gitError "no such start point")
    | some c => .ok { st with localBranches := setKV st.localBranches name c }

/-- Models `git branch <name> FETCH_HEAD` after fetching commit `c`. -/
def git_branch_at (st : DevState) (name : String) (c : Nat) : DevM DevState :=
  if !gitBranchNameOk name then .error (st, .gitError "not a valid ref name")
  else if (lookupKV st.localBranches name).isSome then
    .error (st, .gitError "branch already exists")
  else .ok { st with localBranches := setKV st.localBranches name c }

/-- Models `_local_branch_for_ticket(ticket, pull_if_not_found=True)`
(sagedev.py lines 3138-3182): returns the recorded branch when one
exists, otherwise pulls the branch named on trac into a new local branch
and records the link (the branch-naming and link-recording lines are
absent from the extract and follow the spec's Checkout Engine step 3). -/
def local_branch_for_ticket_pull (st : DevState) (ticket : Nat) :
    DevM (DevState × String) :=
  if has_local_branch_for_ticket st ticket then
    .ok (st, (local_branch_for_ticket st ticket).getD "")
  else if !(st.tracTickets.contains ticket) then
    .error (st, .sageDevValueError "ticket does not exist on trac")
  else
    match lookupKV st.tracField ticket with
    | none => .error (st, .sageDevValueError "Branch field is not set on trac.")
    | some rb =>
      match lookupKV st.remoteRefs rb with
      | none => .error (st, .sageDevValueError "Branch does not exist on the remote server.")
      | some c =>
        let nb := new_local_branch_for_ticket st.localBranches ticket
        match git_branch_at st nb c with
        | .error e => .error e
        | .ok st1 => .ok (set_local_branch_for_ticket st1 ticket (some nb), nb)

/-- The branch-creation `try` block of `checkout_ticket` (sagedev.py
lines 470-507): `baseResolved = none` models `base == ''` (branch from
master, or from the fetched trac branch when the ticket's branch field
is set, refusing when that remote branch is missing, lines 480-486);
`baseResolved = some bb` models an explicit base branch (existence
check, then the `Create fresh branch?` confirmation when the trac
ticket already names a branch, lines 491-507). -/
def checkout_create_try (ui : CheckoutUI) (st : DevState) (branch : String)
    (baseResolved : Option String) (remoteBranch? : Option String) : DevM DevState :=
  match baseResolved with
  | none =>
    match remoteBranch? with
    | none => git_branch st branch MASTER_BRANCH
    | some rb =>
      if !is_remote_branch_name st rb (some true) then
        .error ({ st with uiErrors := st.uiErrors ++
            ["The branch field on the ticket is set to the non-existent \"" ++ rb ++ "\"."] },
          .operationCancelled "remote branch does not exist")
      else git_branch_at st branch ((lookupKV st.remoteRefs rb).getD 0)
  | some bb =>
    if !is_local_branch_name st.localBranches bb (some true) then
      .error (st, .sageDevValueError "Branch does not exist locally.")
    else
      match remoteBranch? with
      | some _ =>
        if !ui.confirmFresh then .error (st, .operationCancelled "user requested")
        else git_branch st branch bb
      | none => git_branch st branch bb

/-- The `except:` handler of the `try` block (sagedev.py lines 508-512):
on any failure the partially created branch is deleted before the error
is re-raised. -/
def checkout_create_rollback (ui : CheckoutUI) (st : DevState) (branch : String)
    (baseResolved : Option String) (remoteBranch? : Option String) : DevM DevState :=
  match checkout_create_try ui st branch baseResolved remoteBranch? with
  | .ok st1 => .ok st1
  | .error (st1, e) =>
    .error ({ st1 with localBranches := eraseKV st1.localBranches branch }, e)

/-- The tail of the branch-creation path after `base` has been
resolved (sagedev.py lines 469-521): read the trac branch field, create
the branch under the rollback handler, then record the
BranchTicketLink (line 514), the DependencySet when non-empty
(lines 515-518), the RemoteBranchLink (line 519), and switch
(line 521). -/
def checkout_create_finish (ui : CheckoutUI) (st : DevState) (ticket : Nat)
    (branch : String) (baseResolved : Option String) (deps : List Nat) : DevM DevState :=
  match checkout_create_rollback ui st branch baseResolved (lookupKV st.tracField ticket) with
  | .error e => .error e
  | .ok st2 =>
    let st3 := set_local_branch_for_ticket st2 ticket (some branch)
    let st4 := if deps.isEmpty then st3 else set_dependencies_for_ticket st3 ticket (some deps)
    let st5 := { st4 with remoteOf := setKV st4.remoteOf branch (remote_branch_for_ticket st4 ticket) }
    checkout_branch ui.rsel ui.csel st5 branch

/-- The branch-creation path of `checkout_ticket` (sagedev.py lines
456-521): read the trac dependencies (line 459), resolve `base`
(lines 460-467; a ticket base overrides the trac dependencies with the
single base ticket and resolves, pulling if needed, to its local
branch), then `checkout_create_finish`. -/
def checkout_ticket_create (ui : CheckoutUI) (st : DevState) (ticket : Nat)
    (branch : String) (base : BaseArg) : DevM DevState :=
  let deps0 := (lookupKV st.tracDeps ticket).getD []
  match base with
  | .emptyStr => checkout_create_finish ui st ticket branch none deps0
  | .noneArg =>
    match current_ticket st with
    | none => .error (st, .sageDevValueError "currently on no ticket, base must not be None")
    | some bt =>
      match local_branch_for_ticket_pull st bt with
      | .error e => .error e
      | .ok (st1, bb) => checkout_create_finish ui st1 ticket branch (some bb) [bt]
  | .ref s =>
    match ticket_from_ticket_name s with
    | some bt =>
      match local_branch_for_ticket_pull st bt with
      | .error e => .error e
      | .ok (st1, bb) => checkout_create_finish ui st1 ticket branch (some bb) [bt]
    | none => checkout_create_finish ui st ticket branch (some s) deps0

/-- Models `checkout_ticket(ticket, branch, base)` (sagedev.py lines 172-521):
validate the ticket (line 430); bind and switch when `branch` names an
existing local branch (lines 434-444, including the guards of lines
435-438 exactly as written); switch to the recorded branch when the
ticket already has one (lines 446-452); otherwise create a new branch
(default name from the ticket id, line 454). -/
def checkout_ticket (ui : CheckoutUI) (st : DevState) (ticket : Nat)
    (branch? : Option String) (base : BaseArg) : DevM DevState :=
  if !(st.tracTickets.contains ticket) then
    .error (st, .sageDevValueError "ticket does not exist on trac")
  else
    match branch? with
    | some b =>
      if is_local_branch_name st.localBranches b (some true) then
        if !(baseIsMaster base) then
          .error (st, .sageDevValueError "base must not be specified if branch is an existing branch")
        else if b == MASTER_BRANCH then
          .error (st, .sageDevValueError "branch must not be the master branch")
        else
          checkout_branch ui.rsel ui.csel (set_local_branch_for_ticket st ticket (some b)) b
      else checkout_ticket_create ui st ticket b base
    | none =>
      if has_local_branch_for_ticket st ticket then
        checkout_branch ui.rsel ui.csel st ((local_branch_for_ticket st ticket).getD "")
      else
        checkout_ticket_create ui st ticket
          (new_local_branch_for_ticket st.localBranches ticket) base

/-! ## `merge` -/

/-- Answers to the prompts a merge can raise: `mergeOk` is the backend
merge outcome, `selOk` the `Finished?` choice of the conflict loop. -/
structure MergeAns where
  mergeOk : Bool
  selOk : Bool
  rsel : ResetSel
  csel : CleanSel
  deriving Repr, DecidableEq

/-- The merge execution and dependency recording (sagedev.py lines
2186-2222): run the backend merge (its effect on the commit graph is
not tracked by the registry model); on conflicts loop `ok`/`abort`
where `abort` cancels after restoring the pre-merge clean state
(lines 2206-2213); then, when `create_dependency` holds, append the
merged ticket to the current ticket's dependency list unless already
present (lines 2214-2222; line 2215 asserts a current ticket exists). -/
def merge_and_record (ans : MergeAns) (st : DevState) (currentTicket? : Option Nat)
    (ticket : Nat) (createDependency : Bool) : DevM DevState :=
  match (if ans.mergeOk then Except.ok st
         else if ans.selOk then Except.ok st
         else Except.error (st, DevError.operationCancelled "user requested") : DevM DevState) with
  | .error e => .error e
  | .ok st1 =>
    if createDependency then
      match currentTicket? with
      | none => .error (st1, .gitError "assertion failure")
      | some ct =>
        let ds := dependencies_for_ticket st1 ct
        if ds.contains ticket then .ok st1
        else .ok (set_dependencies_for_ticket st1 ct (some (ds ++ [ticket])))
    else .ok st1

/-- Models `merge(ticket_or_branch, pull, create_dependency)` for a ticket
target (sagedev.py lines 2100-2222): drive the guard to clean
(lines 2100-2107), require a named current branch (lines 2108-2115),
refuse to merge a ticket into itself (lines 2133-2134), check the
ticket exists (line 2135), default `pull` and `create_dependency` to
true (lines 2136-2139), resolve the remote branch from the trac branch
field when pulling (lines 2142-2147, re-checked at lines 2171-2176),
else use the recorded local branch (lines 2140-2141, asserted at
line 2182), then merge and record. -/
def merge_ticket (ans : MergeAns) (st : DevState) (ticket : Nat)
    (pull? : Option Bool) (createDep? : Option Bool) : DevM DevState :=
  match reset_to_clean_state ans.rsel true st with
  | .error (st1, _) =>
    .error ({ st1 with uiErrors := st1.uiErrors ++
        ["Cannot merge because working directory is not in a clean state."] },
      .operationCancelled "working directory not clean")
  | .ok st1 =>
    match clean ans.rsel ans.csel true st1 with
    | .error (st2, _) =>
      .error ({ st2 with uiErrors := st2.uiErrors ++
          ["Cannot merge because working directory is not in a clean state."] },
        .operationCancelled "working directory not clean")
    | .ok st2 =>
      match st2.currentBranch with
      | none => .error (st2, .operationCancelled "detached head")
      | some _ =>
        let currentTicket? := current_ticket st2
        if some ticket == currentTicket? then
          .error (st2, .sageDevValueError "cannot merge a ticket into itself")
        else if !(st2.tracTickets.contains ticket) then
          .error (st2, .sageDevValueError "ticket does not exist on trac")
        else
          let pull := pull?.getD true
          let createDependency := createDep?.getD true
          if pull then
            match lookupKV st2.tracField ticket with
            | none =>
              .error ({ st2 with uiErrors := st2.uiErrors ++
                  ["Cannot merge remote branch because no branch has been set on the trac ticket."] },
                .operationCancelled "remote branch not set on trac")
            | some rb =>
              if !is_remote_branch_name st2 rb (some true) then
                .error ({ st2 with uiErrors := st2.uiErrors ++
                    ["Can not merge remote branch \"" ++ rb ++ "\". It does not exist."] },
                  .operationCancelled "no such branch")
              else merge_and_record ans st2 currentTicket? ticket createDependency
          else
            if has_local_branch_for_ticket st2 ticket then
              merge_and_record ans st2 currentTicket? ticket createDependency
            else .error (st2, .gitError "assertion failure")

/-! ## `push` -/

inductive DepSel where
  | upload | download | keep
  deriving Repr, DecidableEq

/-- Answers to the prompts a push can raise. -/
structure PushAns where
  confirmCreate : Bool
  confirmPush : Bool
  confirmField : Bool
  depSel : DepSel
  deriving Repr, DecidableEq

/-- The branch-field negotiation after a push (sagedev.py lines
1157-1174): a no-op when the field already names the pushed remote
branch; when the field holds another value, fetch it and overwrite only
if the newly pushed branch head is a descendant of (or equal to) it.
Modelled from the spec: the guard condition line is absent from the
extract (only the error text of lines 1161-1163 is retained); spec 4.6:
"read the field's current value, and only overwrite it if the new
branch is a descendant of (or equal to) the old value - otherwise
refuse, citing divergence".  The `Change the "Branch:" field?`
confirmation is at line 1174. -/
def update_branch_field (isAncestor : Nat → Nat → Bool) (confirmField : Bool)
    (st : DevState) (ticket : Nat) (remoteBranch : String) (localC : Nat) :
    DevM DevState :=
  match lookupKV st.tracField ticket with
  | some cur =>
    if cur == remoteBranch then .ok st
    else
      match lookupKV st.remoteRefs cur with
      | none => .error (st, .gitError "fetch failed")
      | some curC =>
        if !(curC == localC || isAncestor curC localC) then
          .error ({ st with uiErrors := st.uiErrors ++
              ["Not setting the branch field for ticket #" ++ toString ticket ++
               " to \"" ++ remoteBranch ++ "\" because \"" ++ remoteBranch ++
               "\" and the current value of the branch field \"" ++ cur ++
               "\" have diverged."] },
            .diverged "branch field has diverged")
        else if !confirmField then .error (st, .operationCancelled "user requested")
        else .ok { st with tracField := setKV st.tracField ticket remoteBranch }
  | none => .ok { st with tracField := setKV st.tracField ticket remoteBranch }

/-- Dependency reconciliation after a push (sagedev.py lines 1175-1204):
when the pushed branch is ticket-bound, compare the trac dependency
list with the local one; equal lists are left alone (lines 1197-1200),
an empty trac list is overwritten without a prompt (visible in the
doctest at line 1058), otherwise `upload`/`download`/`keep`
(lines 1181-1196). -/
def dep_reconcile (ans : PushAns) (st : DevState) (ticket : Nat) (branch : String)
    (didPush : Bool) : DevM (DevState × Bool) :=
  match ticket_for_local_branch st branch with
  | none => .ok (st, didPush)
  | some bt =>
    let oldD := (lookupKV st.tracDeps ticket).getD []
    let newD := dependencies_for_ticket st bt
    if oldD == newD then .ok (st, didPush)
    else if oldD.isEmpty then
      .ok ({ st with tracDeps := setKV st.tracDeps ticket newD }, didPush)
    else
      match ans.depSel with
      | .keep => .ok (st, didPush)
      | .download => .ok (set_dependencies_for_ticket st ticket (some oldD), didPush)
      | .upload => .ok ({ st with tracDeps := setKV st.tracDeps ticket newD }, didPush)

/-- The tail of `push` after the branch was (or was not) pushed: record
the RemoteBranchLink (modelled from the spec, section 3: "set whenever a
push target is established"), negotiate the branch field, reconcile
dependencies. -/
def push_finish (isAncestor : Nat → Nat → Bool) (ans : PushAns) (st : DevState)
    (ticket? : Option Nat) (branch remoteBranch : String) (localC : Nat)
    (didPush : Bool) : DevM (DevState × Bool) :=
  let st1 := { st with remoteOf := setKV st.remoteOf branch remoteBranch }
  match ticket? with
  | none => .ok (st1, didPush)
  | some t =>
    match update_branch_field isAncestor ans.confirmField st1 t remoteBranch localC with
    | .error e => .error e
    | .ok st2 => dep_reconcile ans st2 t branch didPush

/-- Models `push(ticket, remote_branch, force)` from the point where the
current branch and the destination remote branch are resolved
(sagedev.py lines 1123-1204).  In order: offer to create a missing
remote branch (lines 1124-1126); refuse a non-fast-forward push
(error text lines 1127-1131; the condition line is absent from the
extract and is modelled from the spec, 4.6: "if remote is not an
ancestor of local and `force` is unset, refuse (possible history
loss)"); skip the push when the remote head equals the local head
(lines 1132-1137, continuing without error - "Did not push any
changes", line 1156); otherwise list the commits, confirm, and push
(lines 1138-1155); then `push_finish`.  The returned boolean records
whether a push to the remote repository happened. -/
def push (isAncestor : Nat → Nat → Bool) (ans : PushAns) (st : DevState)
    (ticket? : Option Nat) (branch remoteBranch : String) (force : Bool) :
    DevM (DevState × Bool) :=
  match lookupKV st.localBranches branch with
  | none => .error (st, .gitError "no such local branch")
  | some localC =>
    let remoteC? := lookupKV st.remoteRefs remoteBranch
    if !remoteC?.isSome && !ans.confirmCreate then
      .error (st, .operationCancelled "User did not want to create remote branch.")
    else if (match remoteC? with
             | some remoteC => !force && !(isAncestor remoteC localC)
             | none => false) then
      .error ({ st with uiErrors := st.uiErrors ++
          ["Not pushing your changes because they would discard some of the commits on the remote branch \"" ++
           remoteBranch ++ "\"."] },
        .operationCancelled "not a fast-forward")
    else if remoteC?.isSome && !force && remoteC? == some localC then
      push_finish isAncestor ans st ticket? branch remoteBranch localC false
    else if !force && remoteC?.isSome && !ans.confirmPush then
      .error (st, .operationCancelled "user requested")
    else
      push_finish isAncestor ans
        { st with remoteRefs := setKV st.remoteRefs remoteBranch localC }
        ticket? branch remoteBranch localC true

def masterState : DevState :=
  { localBranches := [("master", 0)], currentBranch := some "master",
    detachedHead := none, dirty := false, merging := false, ticketBranch := [],
    deps := [], remoteOf := [], remoteRefs := [], tracField := [], tracDeps := [],
    tracTickets := [], uiErrors := [] }

def c4State : DevState :=
  { localBranches := [("master", 0), ("ticket/1", 1)], currentBranch := some "master",
    detachedHead := none, dirty := false, merging := false,
    ticketBranch := [(1, "ticket/1")], deps := [], remoteOf := [], remoteRefs := [],
    tracField := [], tracDeps := [], tracTickets := [1], uiErrors := [] }

def c4UI : CheckoutUI := { confirmFresh := true, rsel := .reset, csel := .discard }

/-- The state `checkout_ticket` on `c4State` computes: only the checked
out branch changes. -/
def c4State1 : DevState :=
  { c4State with currentBranch := some "ticket/1", detachedHead := none }

def c7State : DevState :=
  { localBranches := [("master", 0), ("b1", 1)], currentBranch := some "master",
    detachedHead := none, dirty := true, merging := false, ticketBranch := [],
    deps := [], remoteOf := [], remoteRefs := [], tracField := [], tracDeps := [],
    tracTickets := [], uiErrors := [] }

/-- The state `checkout_branch` with the discard selection on `c7State`
computes: the tree is cleaned and `b1` is checked out. -/
def c7Result : DevState :=
  { c7State with
    dirty := false
    currentBranch := some "b1"
    detachedHead := none }

def abandonState : DevState :=
  { localBranches := [("master", 0), ("ticket/1", 1)], currentBranch := some "master",
    detachedHead := none, dirty := false, merging := false,
    ticketBranch := [(1, "ticket/1")], deps := [(1, [2])], remoteOf := [],
    remoteRefs := [], tracField := [], tracDeps := [], tracTickets := [1],
    uiErrors := [] }

/-- The state `abandon` on `abandonState` computes: the ticket branch
is renamed into the trash namespace and the registry entries of ticket
1 are cleared. -/
def abandonResult : DevState :=
  { abandonState with
    localBranches := [("master", 0), ("trash/ticket/1", 1)]
    ticketBranch := []
    deps := [] }

def c3State : DevState :=
  { localBranches := [("master", 0), ("ticket/1", 1)], currentBranch := some "ticket/1",
    detachedHead := none, dirty := false, merging := false,
    ticketBranch := [(1, "ticket/1")], deps := [], remoteOf := [],
    remoteRefs := [("u/bob/ticket/2", 5)], tracField := [(2, "u/bob/ticket/2")],
    tracDeps := [], tracTickets := [1, 2], uiErrors := [] }

def c3Ans : MergeAns := { mergeOk := true, selOk := true, rsel := .reset, csel := .discard }

/-- The state `merge_ticket` on `c3State` computes: ticket 2 recorded
as the single dependency of ticket 1. -/
def c3Result : DevState :=
  { c3State with deps := [(1, [2])] }

def c1State : DevState :=
  { localBranches := [("ticket/1", 3)], currentBranch := some "ticket/1",
    detachedHead := none, dirty := false, merging := false,
    ticketBranch := [(1, "ticket/1")], deps := [], remoteOf := [],
    remoteRefs := [("u/bob/ticket/1", 3), ("u/alice/ticket/1", 9)],
    tracField := [(1, "u/alice/ticket/1")], tracDeps := [], tracTickets := [1],
    uiErrors := [] }

def c1Anc : Nat → Nat → Bool := fun a b => a == b

def c1Ans : PushAns :=
  { confirmCreate := true, confirmPush := true, confirmField := true, depSel := .keep }

/-- The state `push` on `c1State` reaches when it raises the diverged
error: the remote push happened, the branch field is untouched, and
the divergence message was logged. -/
def c1Result : DevState :=
  { c1State with
    remoteOf := [("ticket/1", "u/bob/ticket/1")]
    uiErrors := ["Not setting the branch field for ticket #1 to \"u/bob/ticket/1\" because \"u/bob/ticket/1\" and the current value of the branch field \"u/alice/ticket/1\" have diverged."] }

def c2State : DevState :=
  { localBranches := [("ticket/1", 0)], currentBranch := some "ticket/1",
    detachedHead := none, dirty := false, merging := false,
    ticketBranch := [(1, "ticket/1")], deps := [], remoteOf := [],
    remoteRefs := [("u/doctest/ticket/1", 1)], tracField := [(1, "u/doctest/ticket/1")],
    tracDeps := [], tracTickets := [1], uiErrors := [] }

def c2Anc : Nat → Nat → Bool := fun a b => a == b || (a == 0 && b == 1)

def c2Ans : PushAns :=
  { confirmCreate := true, confirmPush := true, confirmField := true, depSel := .keep }

def c6State : DevState :=
  { localBranches := [("master", 0)], currentBranch := some "master",
    detachedHead := none, dirty := false, merging := false, ticketBranch := [],
    deps := [], remoteOf := [], remoteRefs := [],
    tracField := [(1, "u/alice/ticket/1")], tracDeps := [], tracTickets := [1],
    uiErrors := [] }

def c6UI : CheckoutUI := { confirmFresh := false, rsel := .reset, csel := .discard }

def c8State : DevState :=
  { localBranches := [("master", 0), ("ticket/1", 1)], currentBranch := some "master",
    detachedHead := none, dirty := false, merging := false,
    ticketBranch := [(1, "ticket/1")], deps := [], remoteOf := [], remoteRefs := [],
    tracField := [], tracDeps := [], tracTickets := [1], uiErrors := [] }

def c8UI : CheckoutUI := { confirmFresh := true, rsel := .reset, csel := .discard }

theorem lookupKV_setKV_self {α β : Type} [BEq α] [LawfulBEq α]
    (l : List (α × β)) (a : α) (b : β) : lookupKV (setKV l a b) a = some b := by
  induction l with
  | nil => simp [lookupKV, setKV]
  | cons kv r ih =>
    obtain ⟨k, v⟩ := kv
    by_cases h : k = a
    · subst h; simp [lookupKV, setKV]
    · simp [lookupKV, setKV, h, ih]

theorem lookupKV_setKV_ne {α β : Type} [BEq α] [LawfulBEq α]
    (l : List (α × β)) (a c : α) (b : β) (h : c ≠ a) :
    lookupKV (setKV l a b) c = lookupKV l c := by
  induction l with
  | nil => simp [lookupKV, setKV, Ne.symm h]
  | cons kv r ih =>
    obtain ⟨k, v⟩ := kv
    by_cases hk : k = a
    · subst hk
      simp [setKV, lookupKV, Ne.symm h, fun hh : k = c => h hh.symm]
    · simp only [setKV, beq_iff_eq, hk, if_false, lookupKV]
      by_cases hc : k = c
      · simp [hc]
      · simp [hc, ih]

theorem lookupKV_eraseKV_self {α β : Type} [BEq α] [LawfulBEq α]
    (l : List (α × β)) (a : α) : lookupKV (eraseKV l a) a = none := by
  induction l with
  | nil => simp [lookupKV, eraseKV]
  | cons kv r ih =>
    obtain ⟨k, v⟩ := kv
    by_cases h : k = a
    · simp [eraseKV, h, ih]
    · simp [eraseKV, lookupKV, h, ih]

theorem lookupKV_eraseKV_ne {α β : Type} [BEq α] [LawfulBEq α]
    (l : List (α × β)) (a c : α) (h : c ≠ a) :
    lookupKV (eraseKV l a) c = lookupKV l c := by
  induction l with
  | nil => simp [lookupKV, eraseKV]
  | cons kv r ih =>
    obtain ⟨k, v⟩ := kv
    by_cases hk : k = a
    · subst hk
      simp [eraseKV, lookupKV, fun hh : k = c => h hh.symm, ih, Ne.symm h]
    · simp only [eraseKV, beq_iff_eq, hk, if_false, lookupKV]
      by_cases hc : k = c
      · simp [hc]
      · simp [hc, ih]

theorem underscored_append (p : String) : ∀ (k : Nat) (b : String),
    p ++ underscored b k = underscored (p ++ b) k := by
  intro k
  induction k with
  | zero => intro b; rfl
  | succ n ih =>
    intro b
    show p ++ underscored (b ++ "_") n = underscored ((p ++ b) ++ "_") n
    rw [ih (b ++ "_"), String.append_assoc]

theorem underscored_length : ∀ (k : Nat) (b : String),
    (underscored b k).length = b.length + k := by
  intro k
  induction k with
  | zero => intro b; rfl
  | succ n ih =>
    intro b
    show (underscored (b ++ "_") n).length = b.length + (n + 1)
    rw [ih (b ++ "_"), String.length_append]
    have h1 : ("_" : String).length = 1 := rfl
    rw [h1]; omega

theorem badPair_underscore (a : Char) : badPair a '_' = false := by
  have h1 : ('_' == '.') = false := by decide
  have h2 : ('_' == '/') = false := by decide
  have h3 : ('_' == Char.ofNat 123) = false := by decide
  simp [badPair, h1, h2, h3]

theorem noBadPairs_snoc_underscore : ∀ cs : List Char, noBadPairs cs = true →
    noBadPairs (cs ++ ['_']) = true := by
  intro cs
  induction cs with
  | nil => intro _; rfl
  | cons a r ih =>
    cases r with
    | nil =>
      intro _
      show noBadPairs [a, '_'] = true
      simp [noBadPairs, badPair_underscore a]
    | cons b r2 =>
      intro h
      rw [show noBadPairs (a :: b :: r2) = (!(badPair a b) && noBadPairs (b :: r2))
            from rfl, Bool.and_eq_true] at h
      show noBadPairs (a :: b :: (r2 ++ ['_'])) = true
      rw [show noBadPairs (a :: b :: (r2 ++ ['_'])) =
            (!(badPair a b) && noBadPairs (b :: (r2 ++ ['_']))) from rfl,
          Bool.and_eq_true]
      exact ⟨h.1, ih h.2⟩

theorem gitBranchNameOk_snoc_underscore (s : String)
    (h : gitBranchNameOk s = true) : gitBranchNameOk (s ++ "_") = true := by
  have hdata : (s ++ "_").data = s.data ++ ['_'] := String.data_append s "_"
  unfold gitBranchNameOk at h ⊢
  rw [hdata]
  simp only [Bool.and_eq_true] at h ⊢
  obtain ⟨⟨⟨⟨h1, h2⟩, h3⟩, h4⟩, h5⟩ := h
  refine ⟨⟨⟨⟨?_, ?_⟩, ?_⟩, ?_⟩, ?_⟩
  · simp
  · rw [List.all_append]
    simp only [Bool.and_eq_true]
    exact ⟨h2, by decide⟩
  · exact noBadPairs_snoc_underscore s.data h3
  · cases hcs : s.data with
    | nil => rw [hcs] at h1; simp [List.isEmpty] at h1
    | cons a l =>
      rw [hcs] at h4
      simpa using h4
  · unfold okTail
    rw [List.reverse_append]
    have hk : ('_' == '/') = false := by decide
    have hd : ('_' == '.') = false := by decide
    have hl : ('_' == 'k') = false := by decide
    simp [hk, hd, hl]

theorem gitBranchNameOk_underscored (b : String) (h : gitBranchNameOk b = true) :
    ∀ k : Nat, gitBranchNameOk (underscored b k) = true := by
  intro k
  induction k generalizing b with
  | zero => exact h
  | succ n ih =>
    show gitBranchNameOk (underscored (b ++ "_") n) = true
    exact ih (b ++ "_") (gitBranchNameOk_snoc_underscore b h)

theorem leadsWith_refl_append : ∀ p q : List Char, leadsWith p (p ++ q) = true := by
  intro p
  induction p with
  | nil => intro q; rfl
  | cons a r ih =>
    intro q
    show (a == a && leadsWith r (r ++ q)) = true
    simp [ih q]

theorem dropWhile_append_last (p : Char → Bool) (c : Char) (hc : p c = false) :
    ∀ l : List Char, (l ++ [c]).dropWhile p = l.dropWhile p ++ [c] := by
  intro l
  induction l with
  | nil => simp [List.dropWhile_cons, hc]
  | cons a r ih =>
    by_cases ha : p a = true
    · simp [List.dropWhile_cons, ha, ih]
    · simp [List.dropWhile_cons, ha]

theorem pyIntParse_head_t (s : String) (L : List Char) (hs : s.data = 't' :: L) :
    pyIntParse s = none := by
  have hsp : (('t' : Char) == ' ') = false := by decide
  have e1 : List.dropWhile (fun x => x == ' ') ('t' :: L) = 't' :: L := by
    simp only [List.dropWhile_cons, hsp]
    rfl
  have e2 : ((('t' :: L).reverse).dropWhile (fun x => x == ' ')).reverse
      = 't' :: ((L.reverse.dropWhile (fun x => x == ' ')).reverse) := by
    rw [List.reverse_cons, dropWhile_append_last (fun x => x == ' ') 't' hsp,
        List.reverse_append]
    rfl
  unfold pyIntParse
  rw [hs, e1, e2]
  have h1 : (('t' : Char) == '-') = false := by decide
  have h2 : (('t' : Char) == '+') = false := by decide
  have h3 : ('t' : Char).isDigit = false := by decide
  simp [h1, h2, h3]

theorem is_ticket_name_trash (x : String) :
    is_ticket_name ("trash/" ++ x) = false := by
  unfold is_ticket_name ticket_from_ticket_name
  have hdata : ("trash/" ++ x).data = 't' :: ('r' :: 'a' :: 's' :: 'h' :: '/' :: x.data) :=
    String.data_append "trash/" x
  have hhash : ¬ (("trash/" ++ x) ≠ "" ∧ ("trash/" ++ x).data.head? = some '#') := by
    intro hcl
    rw [hdata] at hcl
    simp at hcl
  rw [if_neg hhash, pyIntParse_head_t _ _ hdata]
  rfl

theorem beq_false_of_head_ne (x s : String) (h : s.data.head? ≠ some 't') :
    (("trash/" ++ x) == s) = false := by
  apply beq_eq_false_iff_ne.mpr
  intro he
  apply h
  rw [← he]
  show (("trash/" ++ x).data).head? = some 't'
  rw [String.data_append]
  rfl

theorem is_local_branch_name_trash_any (branches : List (String × Nat)) (y : String)
    (hok : gitBranchNameOk ("trash/" ++ y) = true) :
    is_local_branch_name branches ("trash/" ++ y) none = true := by
  unfold is_local_branch_name
  rw [hok, is_ticket_name_trash]
  rw [beq_false_of_head_ne y "None" (by decide), beq_false_of_head_ne y "True" (by decide),
      beq_false_of_head_ne y "False" (by decide),
      beq_false_of_head_ne y "dependencies" (by decide)]
  rfl

theorem is_trash_name_some_false (branches : List (String × Nat)) (y : String)
    (hok : gitBranchNameOk ("trash/" ++ y) = true) :
    is_trash_name branches ("trash/" ++ y) (some false) =
      (lookupKV branches ("trash/" ++ y)).isNone := by
  unfold is_trash_name
  rw [is_local_branch_name_trash_any branches y hok]
  have hlead : leadsWith "trash/".data ("trash/" ++ y).data = true := by
    rw [String.data_append]
    exact leadsWith_refl_append "trash/".data y.data
  rw [hlead]
  unfold is_local_branch_name
  rw [hok, is_ticket_name_trash]
  rw [beq_false_of_head_ne y "None" (by decide), beq_false_of_head_ne y "True" (by decide),
      beq_false_of_head_ne y "False" (by decide),
      beq_false_of_head_ne y "dependencies" (by decide)]
  rfl

theorem lookupKV_isSome_mem {β : Type} (l : List (String × β)) (s : String)
    (h : (lookupKV l s).isSome = true) : s ∈ l.map Prod.fst := by
  induction l with
  | nil => simp [lookupKV] at h
  | cons kv r ih =>
    obtain ⟨k, v⟩ := kv
    by_cases hk : k = s
    · subst hk; simp
    · rw [show lookupKV ((k, v) :: r) s = lookupKV r s by simp [lookupKV, hk]] at h
      exact List.mem_cons_of_mem _ (ih h)

theorem trash_loop_shape (branches : List (String × Nat)) :
    ∀ (fuel : Nat) (b : String), ∃ k : Nat,
      new_local_branch_for_trash_loop branches fuel b = "trash/" ++ underscored b k := by
  intro fuel
  induction fuel with
  | zero => intro b; exact ⟨0, rfl⟩
  | succ n ih =>
    intro b
    unfold new_local_branch_for_trash_loop
    by_cases hg : is_trash_name branches ("trash/" ++ b) (some false) = true
    · exact ⟨0, by rw [if_pos hg]; rfl⟩
    · rw [if_neg hg]
      obtain ⟨k, hk⟩ := ih (b ++ "_")
      exact ⟨k + 1, hk⟩

theorem trash_loop_guard_or_all_fail (branches : List (String × Nat)) :
    ∀ (fuel : Nat) (b : String),
      is_trash_name branches (new_local_branch_for_trash_loop branches fuel b)
        (some false) = true ∨
      ∀ j, j < fuel →
        is_trash_name branches ("trash/" ++ underscored b j) (some false) = false := by
  intro fuel
  induction fuel with
  | zero =>
    intro b
    right
    intro j hj
    exact absurd hj (Nat.not_lt_zero j)
  | succ n ih =>
    intro b
    unfold new_local_branch_for_trash_loop
    by_cases hg : is_trash_name branches ("trash/" ++ b) (some false) = true
    · left; rw [if_pos hg]; exact hg
    · rw [if_neg hg]
      rcases ih (b ++ "_") with h | h
      · left; exact h
      · right
        intro j hj
        cases j with
        | zero =>
          cases hx : is_trash_name branches ("trash/" ++ underscored b 0) (some false)
          · rfl
          · exact absurd hx hg
        | succ m => exact h m (Nat.lt_of_succ_lt_succ hj)

theorem trash_candidates_not_all_exist (branches : List (String × Nat)) (b : String)
    (hok : gitBranchNameOk ("trash/" ++ b) = true) :
    ¬ ∀ j, j < branches.length + 1 →
        is_trash_name branches ("trash/" ++ underscored b j) (some false) = false := by
  intro hall
  have hmem : ∀ j, j < branches.length + 1 →
      ("trash/" ++ underscored b j) ∈ branches.map Prod.fst := by
    intro j hj
    have hokj : gitBranchNameOk ("trash/" ++ underscored b j) = true := by
      rw [underscored_append]
      exact gitBranchNameOk_underscored _ hok j
    have hiso := is_trash_name_some_false branches (underscored b j) hokj
    rw [hall j hj] at hiso
    have hsome : (lookupKV branches ("trash/" ++ underscored b j)).isSome = true := by
      cases hx : lookupKV branches ("trash/" ++ underscored b j) with
      | none => rw [hx] at hiso; simp at hiso
      | some v => rfl
    exact lookupKV_isSome_mem _ _ hsome
  have hinj : ∀ i j : Nat, ("trash/" ++ underscored b i) = ("trash/" ++ underscored b j) →
      i = j := by
    intro i j he
    have hlen := congrArg String.length he
    rw [String.length_append, String.length_append,
        underscored_length, underscored_length] at hlen
    omega
  classical
  have hcard := Finset.card_le_card_of_injOn
    (f := fun i : Fin (branches.length + 1) => "trash/" ++ underscored b (i : Nat))
    (s := Finset.univ) (t := (branches.map Prod.fst).toFinset)
    (fun i _ => List.mem_toFinset.mpr (hmem i i.isLt))
    (fun i _ j _ he => Fin.ext (hinj i j he))
  rw [Finset.card_univ, Fintype.card_fin] at hcard
  have hle : ((branches.map Prod.fst).toFinset).card ≤ branches.length := by
    calc ((branches.map Prod.fst).toFinset).card ≤ (branches.map Prod.fst).length :=
          (branches.map Prod.fst).toFinset_card_le
      _ = branches.length := List.length_map _ _
  omega

/-- The trash name returned by `_new_local_branch_for_trash` does not
collide with any existing local branch (in particular with no existing
trash branch), and it carries the `trash/` shape. -/
theorem new_local_branch_for_trash_spec (branches : List (String × Nat)) (b : String)
    (hok : gitBranchNameOk ("trash/" ++ b) = true) :
    lookupKV branches (new_local_branch_for_trash branches b) = none ∧
    ∃ k : Nat, new_local_branch_for_trash branches b = "trash/" ++ underscored b k := by
  unfold new_local_branch_for_trash
  obtain ⟨k, hk⟩ := trash_loop_shape branches (branches.length + 1) b
  rcases trash_loop_guard_or_all_fail branches (branches.length + 1) b with h | h
  · constructor
    · rw [hk] at h ⊢
      have hokk : gitBranchNameOk ("trash/" ++ underscored b k) = true := by
        rw [underscored_append]
        exact gitBranchNameOk_underscored _ hok k
      rw [is_trash_name_some_false branches (underscored b k) hokk] at h
      exact Option.isNone_iff_eq_none.mp h
    · exact ⟨k, hk⟩
  · exact absurd h (trash_candidates_not_all_exist branches b hok)

/-! ## Lemmas about the working-tree guard -/

theorem reset_to_clean_state_noop (rsel : ResetSel) (euc : Bool) (st : DevState)
    (hm : st.merging = false) : reset_to_clean_state rsel euc st = .ok st := by
  unfold reset_to_clean_state
  rw [hm]
  rfl

theorem clean_noop (rsel : ResetSel) (csel : CleanSel) (euc : Bool) (st : DevState)
    (hm : st.merging = false) (hd : st.dirty = false) :
    clean rsel csel euc st = .ok st := by
  unfold clean
  simp [reset_to_clean_state_noop rsel euc st hm, hd]

theorem checkout_branch_clean (rsel : ResetSel) (csel : CleanSel) (st : DevState)
    (b : String) (hex : is_local_branch_name st.localBranches b (some true) = true)
    (hm : st.merging = false) (hd : st.dirty = false) :
    checkout_branch rsel csel st b =
      .ok { st with currentBranch := some b, detachedHead := none } := by
  unfold checkout_branch
  simp [hex, reset_to_clean_state_noop rsel true st hm, clean_noop, hm, hd]

/-! ## Claim theorems -/

/-- C9: a string that is syntactically a valid ticket reference is never
accepted as a local branch name, whatever the existence mode and the
set of local branches (sagedev.py lines 3010-3012). -/
theorem claim_C9_ticket_name_rejected_as_branch (branches : List (String × Nat))
    (name : String) (ex : Option Bool) (h : is_ticket_name name = true) :
    is_local_branch_name branches name ex = false := by
  unfold is_local_branch_name
  rw [h]
  by_cases hg : gitBranchNameOk name <;> simp [hg]

theorem claim_C9_witness :
    is_ticket_name "#123" = true ∧ is_local_branch_name [] "#123" none = false :=
  ⟨by decide, claim_C9_ticket_name_rejected_as_branch [] "#123" none (by decide)⟩

theorem is_local_branch_name_master (branches : List (String × Nat)) :
    is_local_branch_name branches MASTER_BRANCH (some true) =
      (lookupKV branches MASTER_BRANCH).isSome := by
  unfold is_local_branch_name MASTER_BRANCH
  rw [show gitBranchNameOk "master" = true from by decide,
      show is_ticket_name "master" = false from by decide]
  simp

/-- C10: `abandon` on the master branch always fails - with the
`Cannot delete the master branch.` error message and the `protecting
the user` cancellation - before any mutation: the branches, the
BranchTicketLink, the dependency lists and the remote links of the
returned state are those of the input state, regardless of whether
master is the current branch (the master guard of lines 1802-1804
precedes the current-branch guard of lines 1807-1811). -/
theorem claim_C10_abandon_master_fails (st : DevState)
    (h : (lookupKV st.localBranches MASTER_BRANCH).isSome = true) :
    abandon st MASTER_BRANCH =
      .error ({ st with uiErrors := st.uiErrors ++ ["Cannot delete the master branch."] },
        .operationCancelled "protecting the user") := by
  unfold abandon
  rw [is_local_branch_name_master st.localBranches, h]
  simp

theorem claim_C10_witness :
    abandon masterState MASTER_BRANCH =
      .error ({ masterState with
          uiErrors := masterState.uiErrors ++ ["Cannot delete the master branch."] },
        .operationCancelled "protecting the user") :=
  claim_C10_abandon_master_fails masterState (by decide)

/-- C4: for a ticket that already has a bound local branch,
`checkout_ticket` with no explicit branch (lines 446-452) only switches
to that branch: the BranchTicketLink, the branches, the dependency
lists and the remote links are unchanged, and running it a second time
returns the very same state. -/
theorem claim_C4_checkout_ticket_idempotent (ui : CheckoutUI) (st : DevState)
    (t : Nat) (b : String)
    (hlink : local_branch_for_ticket st t = some b)
    (hex : is_local_branch_name st.localBranches b (some true) = true)
    (ht : st.tracTickets.contains t = true)
    (hd : st.dirty = false) (hm : st.merging = false) :
    ∃ st', checkout_ticket ui st t none .emptyStr = .ok st' ∧
      st'.currentBranch = some b ∧
      st'.ticketBranch = st.ticketBranch ∧
      st'.localBranches = st.localBranches ∧
      st'.deps = st.deps ∧
      st'.remoteOf = st.remoteOf ∧
      checkout_ticket ui st' t none .emptyStr = .ok st' := by
  have hbl : has_local_branch_for_ticket st t = true := by
    unfold has_local_branch_for_ticket
    rw [hlink]
    exact hex
  refine ⟨{ st with currentBranch := some b, detachedHead := none }, ?_, rfl, rfl, rfl, rfl, rfl, ?_⟩
  · unfold checkout_ticket
    rw [ht, hbl, hlink]
    simp [checkout_branch_clean ui.rsel ui.csel st b hex hm hd]
  · have hlink2 : local_branch_for_ticket
        { st with currentBranch := some b, detachedHead := none } t = some b := hlink
    have hbl2 : has_local_branch_for_ticket
        { st with currentBranch := some b, detachedHead := none } t = true := by
      unfold has_local_branch_for_ticket
      rw [hlink2]
      exact hex
    have hstep := checkout_branch_clean ui.rsel ui.csel
      { st with currentBranch := some b, detachedHead := none } b hex hm hd
    unfold checkout_ticket
    rw [ht, hbl2, hlink2]
    simp [hstep]

theorem claim_C4_witness :
    checkout_ticket c4UI c4State 1 none .emptyStr = .ok c4State1 ∧
    c4State1.ticketBranch = c4State.ticketBranch ∧
    checkout_ticket c4UI c4State1 1 none .emptyStr = .ok c4State1 := by
  obtain ⟨st', h1, -, -, -, -, -, h7⟩ :=
    claim_C4_checkout_ticket_idempotent c4UI c4State 1 "ticket/1" (by decide)
      (by decide) (by decide) rfl rfl
  have hc : checkout_ticket c4UI c4State 1 none .emptyStr = .ok c4State1 := rfl
  have hst : st' = c4State1 := Except.ok.inj (h1.symm.trans hc)
  subst hst
  exact ⟨hc, rfl, h7⟩

theorem clean_cancel (rsel : ResetSel) (euc : Bool) (st : DevState)
    (hm : st.merging = false) (hd : st.dirty = true) (he : euc = true) :
    clean rsel .cancelOrKeep euc st =
      .error (st, .operationCancelled "User requested not to clean the working directory.") := by
  subst he
  unfold clean
  rw [reset_to_clean_state_noop rsel true st hm]
  simp [hd]

theorem clean_keep (rsel : ResetSel) (euc : Bool) (st : DevState)
    (hm : st.merging = false) (hd : st.dirty = true) (he : euc = false) :
    clean rsel .cancelOrKeep euc st = .ok st := by
  subst he
  unfold clean
  rw [reset_to_clean_state_noop rsel false st hm]
  simp [hd]

theorem clean_ok_dirty (rsel : ResetSel) (csel : CleanSel) (euc : Bool)
    (st st' : DevState) (hm : st.merging = false) (he : euc = true)
    (h : clean rsel csel euc st = .ok st') : st'.dirty = false := by
  subst he
  unfold clean at h
  rw [reset_to_clean_state_noop rsel true st hm] at h
  cases hd : st.dirty
  · simp [hd] at h
    subst h
    exact hd
  · cases csel
    · simp [hd] at h
      subst h
      simp
    · simp [hd] at h
    · simp [hd] at h
      subst h
      simp

/-- C7: a branch switch first drives the working tree clean, except
that when the target commit equals the current HEAD commit the clean
step is not mandatory and locally modified tracked files may be kept
across the switch; when the commits differ, declining to resolve an
unclean tree fails the switch with no checkout performed, and any
successful switch ends with a clean tree. -/
theorem claim_C7_checkout_branch_guard (rsel : ResetSel) (st : DevState) (b : String)
    (hex : is_local_branch_name st.localBranches b (some true) = true)
    (hm : st.merging = false) :
    ((commit_for_ref_head st ≠ lookupKV st.localBranches b) → st.dirty = true →
      checkout_branch rsel .cancelOrKeep st b =
        .error (st, .operationCancelled "User requested not to clean the working directory.")) ∧
    (commit_for_ref_head st = lookupKV st.localBranches b → st.dirty = true →
      checkout_branch rsel .cancelOrKeep st b =
        .ok { st with currentBranch := some b, detachedHead := none }) ∧
    (∀ (csel : CleanSel) (st' : DevState),
      commit_for_ref_head st ≠ lookupKV st.localBranches b →
      checkout_branch rsel csel st b = .ok st' → st'.dirty = false) := by
  refine ⟨?_, ?_, ?_⟩
  · intro hne hd
    have he : (commit_for_ref_head st != lookupKV st.localBranches b) = true :=
      bne_iff_ne.mpr hne
    unfold checkout_branch
    rw [hex, reset_to_clean_state_noop rsel true st hm]
    simp [clean_cancel rsel _ st hm hd he]
  · intro heq hd
    have he : (commit_for_ref_head st != lookupKV st.localBranches b) = false := by
      simp [heq]
    unfold checkout_branch
    rw [hex, reset_to_clean_state_noop rsel true st hm]
    simp [clean_keep rsel _ st hm hd he]
  · intro csel st' hne hok
    have he : (commit_for_ref_head st != lookupKV st.localBranches b) = true :=
      bne_iff_ne.mpr hne
    unfold checkout_branch at hok
    rw [hex, reset_to_clean_state_noop rsel true st hm] at hok
    cases hc : clean rsel csel (commit_for_ref_head st != lookupKV st.localBranches b) st with
    | error e => simp [hc] at hok
    | ok st2 =>
      simp [hc] at hok
      subst hok
      exact clean_ok_dirty rsel csel _ st st2 hm he hc

theorem claim_C7_witness :
    checkout_branch .reset .cancelOrKeep c7State "b1" =
      .error (c7State, .operationCancelled "User requested not to clean the working directory.") ∧
    checkout_branch .reset .discard c7State "b1" = .ok c7Result ∧
    c7Result.dirty = false := by
  have h := claim_C7_checkout_branch_guard .reset c7State "b1" (by decide) rfl
  have hok : checkout_branch .reset .discard c7State "b1" = .ok c7Result := rfl
  exact ⟨h.1 (by decide) rfl, hok, h.2.2 .discard c7Result (by decide) hok⟩

/-- C5: abandoning a branch that carries a BranchTicketLink and is not
checked out renames it to a fresh trash name - one that collides with
no existing branch, in particular with no existing trash branch - and
clears the ticket-to-branch link and the dependency list of its ticket;
abandoning the currently checked-out branch fails with the distinct
`can not delete current branch` cancellation and changes nothing but
the error log.  (`b ≠ master` because the master branch is covered by
the separate guard of lines 1802-1804; the checkout engine never binds
a ticket to master, line 437-438.) -/
theorem claim_C5_abandon_link_and_trash (st : DevState) (b : String) (t c : Nat)
    (hlink : ticket_for_local_branch st b = some t)
    (hex : lookupKV st.localBranches b = some c)
    (hvalid : is_local_branch_name st.localBranches b (some true) = true)
    (hmaster : b ≠ MASTER_BRANCH)
    (hok : gitBranchNameOk ("trash/" ++ b) = true) :
    (st.currentBranch ≠ some b →
      ∃ st', abandon st b = .ok st' ∧
        lookupKV st.localBranches (new_local_branch_for_trash st.localBranches b) = none ∧
        (∃ k, new_local_branch_for_trash st.localBranches b = "trash/" ++ underscored b k) ∧
        lookupKV st'.localBranches (new_local_branch_for_trash st.localBranches b) = some c ∧
        lookupKV st'.localBranches b = none ∧
        lookupKV st'.ticketBranch t = none ∧
        lookupKV st'.deps t = none) ∧
    (st.currentBranch = some b →
      abandon st b =
        .error ({ st with uiErrors := st.uiErrors ++
            ["Cannot delete \"" ++ b ++ "\": is the current branch."] },
          .operationCancelled "can not delete current branch")) := by
  obtain ⟨hfresh, k, hshape⟩ := new_local_branch_for_trash_spec st.localBranches b hok
  have hbm : (b == MASTER_BRANCH) = false := by
    simp [hmaster]
  have hbne : b ≠ new_local_branch_for_trash st.localBranches b := by
    intro hcontr
    rw [← hcontr] at hfresh
    rw [hex] at hfresh
    exact Option.noConfusion hfresh
  constructor
  · intro hcur
    have hcb : (st.currentBranch == some b) = false := by
      simp [hcur]
    unfold abandon
    rw [hvalid, hbm, hcb, hlink]
    simp only [Bool.not_true, Bool.false_eq_true, if_false]
    refine ⟨_, rfl, hfresh, ⟨k, hshape⟩, ?_, ?_, ?_, ?_⟩
    · show lookupKV (setKV (eraseKV st.localBranches b)
          (new_local_branch_for_trash st.localBranches b)
          ((lookupKV st.localBranches b).getD 0))
          (new_local_branch_for_trash st.localBranches b) = some c
      rw [lookupKV_setKV_self, hex]
      rfl
    · show lookupKV (setKV (eraseKV st.localBranches b)
          (new_local_branch_for_trash st.localBranches b)
          ((lookupKV st.localBranches b).getD 0)) b = none
      rw [lookupKV_setKV_ne _ _ _ _ hbne, lookupKV_eraseKV_self]
    · show lookupKV (eraseKV st.ticketBranch t) t = none
      exact lookupKV_eraseKV_self st.ticketBranch t
    · show lookupKV (eraseKV st.deps t) t = none
      exact lookupKV_eraseKV_self st.deps t
  · intro hcur
    have hcb : (st.currentBranch == some b) = true := by
      rw [hcur]
      simp
    unfold abandon
    rw [hvalid, hbm, hcb]
    simp

theorem claim_C5_witness :
    abandon abandonState "ticket/1" = .ok abandonResult ∧
    new_local_branch_for_trash abandonState.localBranches "ticket/1" = "trash/ticket/1" ∧
    lookupKV abandonState.localBranches "trash/ticket/1" = none ∧
    lookupKV abandonResult.localBranches "trash/ticket/1" = some 1 ∧
    lookupKV abandonResult.ticketBranch 1 = none ∧
    lookupKV abandonResult.deps 1 = none := by
  obtain ⟨h1, -⟩ := claim_C5_abandon_link_and_trash abandonState "ticket/1" 1 1 rfl rfl
    (by decide) (by decide) (by decide)
  obtain ⟨st', hrun, hfresh, -, hren, -, hlink, hdeps⟩ := h1 (by decide)
  have hnb : new_local_branch_for_trash abandonState.localBranches "ticket/1" =
      "trash/ticket/1" := rfl
  have hres : abandon abandonState "ticket/1" = .ok abandonResult := rfl
  have hst : st' = abandonResult := Except.ok.inj (hrun.symm.trans hres)
  subst hst
  rw [hnb] at hfresh hren
  exact ⟨hres, hnb, hfresh, hren, hlink, hdeps⟩

theorem merge_ticket_run (ans : MergeAns) (st : DevState) (T1 T2 : Nat) (cb rb : String)
    (hm : st.merging = false) (hd : st.dirty = false)
    (hcb : st.currentBranch = some cb)
    (hcur : current_ticket st = some T1)
    (hne : T1 ≠ T2)
    (ht2 : st.tracTickets.contains T2 = true)
    (hfield : lookupKV st.tracField T2 = some rb)
    (hrb : is_remote_branch_name st rb (some true) = true)
    (hmok : ans.mergeOk = true) :
    merge_ticket ans st T2 none none =
      (if (dependencies_for_ticket st T1).contains T2 then Except.ok st
       else Except.ok (set_dependencies_for_ticket st T1
              (some (dependencies_for_ticket st T1 ++ [T2])))) := by
  have hbne : (some T2 == current_ticket st) = false := by
    rw [hcur]
    simp [Ne.symm hne]
  unfold merge_ticket
  rw [reset_to_clean_state_noop ans.rsel true st hm]
  simp only [clean_noop ans.rsel ans.csel true st hm hd, hcb, hbne, ht2, hfield, hrb,
    Option.getD_none, Bool.not_true, Bool.false_eq_true, if_false, if_true]
  unfold merge_and_record
  simp only [hmok, hcur, Option.getD_none]
  rfl

/-- C3: merging another ticket with `create_dependency` appends it to
the current ticket's dependency list only when absent (lines
2214-2222); afterwards the list holds it exactly once, and repeating
the same merge returns the identical state.  (The count hypothesis says
the list did not already hold T2 twice; every mutation in the model
preserves it.) -/
theorem claim_C3_merge_dependency_idempotent (ans : MergeAns) (st : DevState)
    (T1 T2 : Nat) (cb rb : String)
    (hm : st.merging = false) (hd : st.dirty = false)
    (hcb : st.currentBranch = some cb)
    (hcur : current_ticket st = some T1)
    (hne : T1 ≠ T2)
    (ht2 : st.tracTickets.contains T2 = true)
    (hfield : lookupKV st.tracField T2 = some rb)
    (hrb : is_remote_branch_name st rb (some true) = true)
    (hmok : ans.mergeOk = true)
    (hcount : (dependencies_for_ticket st T1).count T2 ≤ 1) :
    ∃ st1, merge_ticket ans st T2 none none = .ok st1 ∧
      (dependencies_for_ticket st1 T1).count T2 = 1 ∧
      merge_ticket ans st1 T2 none none = .ok st1 := by
  have hrun := merge_ticket_run ans st T1 T2 cb rb hm hd hcb hcur hne ht2 hfield hrb hmok
  by_cases hmem : (dependencies_for_ticket st T1).contains T2 = true
  · refine ⟨st, ?_, ?_, ?_⟩
    · rw [hrun, if_pos hmem]
    · have hm2 : T2 ∈ dependencies_for_ticket st T1 := by
        simpa using hmem
      have h1 : 0 < (dependencies_for_ticket st T1).count T2 :=
        List.count_pos_iff.mpr hm2
      omega
    · rw [hrun, if_pos hmem]
  · have hmemf : (dependencies_for_ticket st T1).contains T2 = false :=
      Bool.eq_false_iff.mpr hmem
    have hnotmem : T2 ∉ dependencies_for_ticket st T1 := by
      intro hc
      apply hmem
      simpa using hc
    refine ⟨set_dependencies_for_ticket st T1
        (some (dependencies_for_ticket st T1 ++ [T2])), ?_, ?_, ?_⟩
    · rw [hrun, if_neg hmem]
    · have hdeps1 : dependencies_for_ticket
          (set_dependencies_for_ticket st T1
            (some (dependencies_for_ticket st T1 ++ [T2]))) T1 =
          dependencies_for_ticket st T1 ++ [T2] := by
        show (lookupKV (setKV st.deps T1 (dependencies_for_ticket st T1 ++ [T2])) T1).getD []
            = dependencies_for_ticket st T1 ++ [T2]
        rw [lookupKV_setKV_self]
        rfl
      rw [hdeps1, List.count_append]
      rw [List.count_eq_zero.mpr hnotmem]
      simp
    · have hdeps1 : dependencies_for_ticket
          (set_dependencies_for_ticket st T1
            (some (dependencies_for_ticket st T1 ++ [T2]))) T1 =
          dependencies_for_ticket st T1 ++ [T2] := by
        show (lookupKV (setKV st.deps T1 (dependencies_for_ticket st T1 ++ [T2])) T1).getD []
            = dependencies_for_ticket st T1 ++ [T2]
        rw [lookupKV_setKV_self]
        rfl
      have hrun2 := merge_ticket_run ans
        (set_dependencies_for_ticket st T1 (some (dependencies_for_ticket st T1 ++ [T2])))
        T1 T2 cb rb hm hd hcb hcur hne ht2 hfield hrb hmok
      have hmem2 : (dependencies_for_ticket
          (set_dependencies_for_ticket st T1
            (some (dependencies_for_ticket st T1 ++ [T2]))) T1).contains T2 = true := by
        rw [hdeps1]
        simp
      rw [hrun2, if_pos hmem2]

theorem claim_C3_witness :
    merge_ticket c3Ans c3State 2 none none = .ok c3Result ∧
    (dependencies_for_ticket c3Result 1).count 2 = 1 ∧
    merge_ticket c3Ans c3Result 2 none none = .ok c3Result := by
  obtain ⟨st1, h1, h2, h3⟩ :=
    claim_C3_merge_dependency_idempotent c3Ans c3State 1 2 "ticket/1" "u/bob/ticket/2"
      rfl rfl rfl rfl (by decide) (by decide) rfl (by decide) rfl (by decide)
  have hres : merge_ticket c3Ans c3State 2 none none = .ok c3Result := rfl
  have hst : st1 = c3Result := Except.ok.inj (h1.symm.trans hres)
  subst hst
  exact ⟨hres, h2, h3⟩

theorem update_branch_field_diverged (isA : Nat → Nat → Bool) (cf : Bool)
    (st : DevState) (t : Nat) (remoteBranch vOld : String) (localC vOldC : Nat)
    (hf : lookupKV st.tracField t = some vOld)
    (hne : vOld ≠ remoteBranch)
    (hvc : lookupKV st.remoteRefs vOld = some vOldC)
    (hdiv : vOldC ≠ localC) (hnd : isA vOldC localC = false) :
    update_branch_field isA cf st t remoteBranch localC =
      .error ({ st with uiErrors := st.uiErrors ++
          ["Not setting the branch field for ticket #" ++ toString t ++
           " to \"" ++ remoteBranch ++ "\" because \"" ++ remoteBranch ++
           "\" and the current value of the branch field \"" ++ vOld ++
           "\" have diverged."] },
        .diverged "branch field has diverged") := by
  have h1 : (vOld == remoteBranch) = false := by simp [hne]
  have h2 : (vOldC == localC) = false := by simp [hdiv]
  unfold update_branch_field
  rw [hf]
  simp only [h1, Bool.false_eq_true, if_false]
  rw [hvc]
  simp [h2, hnd]

theorem push_finish_field_error (isA : Nat → Nat → Bool) (ans : PushAns)
    (st : DevState) (t : Nat) (branch remoteBranch : String) (localC : Nat)
    (didPush : Bool) (e : DevState × DevError)
    (h : update_branch_field isA ans.confirmField
        { st with remoteOf := setKV st.remoteOf branch remoteBranch }
        t remoteBranch localC = .error e) :
    push_finish isA ans st (some t) branch remoteBranch localC didPush = .error e := by
  unfold push_finish
  simp [h]

/-- C1: when a ticket-bound push succeeds but the ticket's branch field
holds a value `vOld` whose head is neither equal to nor an ancestor of
the newly pushed head, the branch-field update fails with the Diverged
refusal, and the field keeps `vOld` (the trac field map in the error
state is that of the input state). -/
theorem claim_C1_push_branch_field_diverged (isA : Nat → Nat → Bool) (ans : PushAns)
    (st : DevState) (t : Nat) (branch remoteBranch vOld : String)
    (localC remoteC vOldC : Nat)
    (hloc : lookupKV st.localBranches branch = some localC)
    (hrem : lookupKV st.remoteRefs remoteBranch = some remoteC)
    (hff : isA remoteC localC = true)
    (hcp : ans.confirmPush = true)
    (hf : lookupKV st.tracField t = some vOld)
    (hne : vOld ≠ remoteBranch)
    (hvc : lookupKV st.remoteRefs vOld = some vOldC)
    (hdiv : vOldC ≠ localC) (hnd : isA vOldC localC = false) :
    ∃ st', push isA ans st (some t) branch remoteBranch false =
        .error (st', .diverged "branch field has diverged") ∧
      st'.tracField = st.tracField ∧
      lookupKV st'.tracField t = some vOld := by
  unfold push
  rw [hloc]
  simp only [hrem, Option.isSome_some, Bool.not_true, Bool.false_and,
    Bool.false_eq_true, if_false, hff, Bool.not_false, Bool.and_false, hcp,
    Bool.and_true, Bool.true_and]
  by_cases hid : remoteC = localC
  · subst hid
    have hupd := update_branch_field_diverged isA ans.confirmField
      { st with remoteOf := setKV st.remoteOf branch remoteBranch }
      t remoteBranch vOld remoteC vOldC hf hne hvc hdiv hnd
    have hrest := push_finish_field_error isA ans st t branch remoteBranch remoteC false _ hupd
    simp only [beq_self_eq_true, if_true]
    rw [hrest]
    exact ⟨_, rfl, rfl, hf⟩
  · have hbeq : (some remoteC == some localC) = false := by simp [hid]
    simp only [hbeq, Bool.false_eq_true, if_false]
    have hvc2 : lookupKV (setKV st.remoteRefs remoteBranch localC) vOld = some vOldC := by
      rw [lookupKV_setKV_ne _ _ _ _ hne]
      exact hvc
    have hupd := update_branch_field_diverged isA ans.confirmField
      { st with
        remoteRefs := setKV st.remoteRefs remoteBranch localC
        remoteOf := setKV st.remoteOf branch remoteBranch }
      t remoteBranch vOld localC vOldC hf hne hvc2 hdiv hnd
    have hrest := push_finish_field_error isA ans
      { st with remoteRefs := setKV st.remoteRefs remoteBranch localC }
      t branch remoteBranch localC true _ hupd
    rw [hrest]
    exact ⟨_, rfl, rfl, hf⟩

theorem claim_C1_witness :
    push c1Anc c1Ans c1State (some 1) "ticket/1" "u/bob/ticket/1" false =
      .error (c1Result, .diverged "branch field has diverged") ∧
    c1Result.tracField = c1State.tracField ∧
    lookupKV c1Result.tracField 1 = some "u/alice/ticket/1" := by
  obtain ⟨st', h1, h2, h3⟩ :=
    claim_C1_push_branch_field_diverged c1Anc c1Ans c1State 1 "ticket/1" "u/bob/ticket/1"
      "u/alice/ticket/1" 3 3 9 rfl rfl rfl rfl rfl (by decide) rfl (by decide) rfl
  have hres : push c1Anc c1Ans c1State (some 1) "ticket/1" "u/bob/ticket/1" false =
      .error (c1Result, .diverged "branch field has diverged") := rfl
  have hpair : (st', DevError.diverged "branch field has diverged") =
      (c1Result, DevError.diverged "branch field has diverged") :=
    Except.error.inj (h1.symm.trans hres)
  have hst : st' = c1Result := congrArg Prod.fst hpair
  subst hst
  exact ⟨hres, h2, h3⟩

/-- C2 counterexample: the local head (commit 0) is an ancestor of the
remote head (commit 1) and not conversely, yet the non-forced push does
not abort with the "nothing to push" report (the non-error outcome the
code reserves for equal heads, lines 1132-1137): it fails with the
would-discard-commits refusal. -/
theorem claim_C2_counterexample :
    c2Anc 0 1 = true ∧ c2Anc 1 0 = false ∧
    push c2Anc c2Ans c2State (some 1) "ticket/1" "u/doctest/ticket/1" false =
      .error ({ c2State with uiErrors :=
          ["Not pushing your changes because they would discard some of the commits on the remote branch \"u/doctest/ticket/1\"."] },
        .operationCancelled "not a fast-forward") := by
  refine ⟨rfl, rfl, ?_⟩
  rfl

/-- C2 (amended): with the destination remote branch present and
`force` unset, the push is skipped with the "identical"/nothing-to-push
report - returning without error, without touching the remote refs and,
when the branch field and the dependency lists already agree, without
any trac mutation - exactly when the remote head equals the local head
(the second-push-with-no-new-commits scenario); when the local head is
an ancestor of the remote head but not conversely, the push instead
aborts with the would-discard-commits refusal, mutating nothing but the
error log. -/
theorem claim_C2_push_nothing_to_push (isA : Nat → Nat → Bool) (ans : PushAns)
    (st : DevState) (t : Nat) (branch remoteBranch : String) (localC remoteC : Nat)
    (hloc : lookupKV st.localBranches branch = some localC)
    (hrem : lookupKV st.remoteRefs remoteBranch = some remoteC)
    (hbt : ticket_for_local_branch st branch = some t)
    (hfield : lookupKV st.tracField t = some remoteBranch)
    (hdeps : (lookupKV st.tracDeps t).getD [] = dependencies_for_ticket st t)
    (hrefl : isA remoteC remoteC = true) :
    (remoteC = localC →
      push isA ans st (some t) branch remoteBranch false =
        .ok ({ st with remoteOf := setKV st.remoteOf branch remoteBranch }, false)) ∧
    (isA localC remoteC = true → isA remoteC localC = false →
      push isA ans st (some t) branch remoteBranch false =
        .error ({ st with uiErrors := st.uiErrors ++
            ["Not pushing your changes because they would discard some of the commits on the remote branch \"" ++
             remoteBranch ++ "\"."] },
          .operationCancelled "not a fast-forward")) := by
  have hdeq : ((lookupKV st.tracDeps t).getD [] == dependencies_for_ticket st t) = true := by
    rw [hdeps]
    simp
  have hfin : ∀ didPush : Bool, push_finish isA ans st (some t) branch remoteBranch
      ((lookupKV st.localBranches branch).getD 0) didPush =
      .ok ({ st with remoteOf := setKV st.remoteOf branch remoteBranch }, didPush) := by
    intro didPush
    have hbt2 : ticket_for_local_branch
        { st with remoteOf := setKV st.remoteOf branch remoteBranch } branch = some t := hbt
    have hdeps2 : (lookupKV st.tracDeps t).getD [] =
        dependencies_for_ticket
          { st with remoteOf := setKV st.remoteOf branch remoteBranch } t := hdeps
    unfold push_finish update_branch_field dep_reconcile
    simp only [hfield, beq_self_eq_true, if_true, hbt2]
    simp [hdeps2]
  constructor
  · intro heq
    subst heq
    have hfin2 := hfin false
    rw [hloc] at hfin2
    unfold push
    rw [hloc]
    simp only [hrem, Option.isSome_some, Bool.not_true, Bool.false_and,
      Bool.false_eq_true, if_false, hrefl, Bool.not_false, Bool.true_and,
      Bool.and_false, beq_self_eq_true, Bool.and_true, if_true]
    exact hfin2
  · intro hb1 hb2
    unfold push
    rw [hloc]
    simp only [hrem, Option.isSome_some, Bool.not_true, Bool.false_and,
      Bool.false_eq_true, if_false, hb2, Bool.not_false, Bool.and_true, Bool.true_and,
      if_true]

theorem is_local_branch_name_parts (branches : List (String × Nat)) (nb : String)
    (h : is_local_branch_name branches nb (some false) = true) :
    gitBranchNameOk nb = true ∧ is_ticket_name nb = false ∧
    (nb == "None" || nb == "True" || nb == "False" || nb == "dependencies") = false ∧
    lookupKV branches nb = none := by
  unfold is_local_branch_name at h
  by_cases h1 : gitBranchNameOk nb
  · by_cases h2 : is_ticket_name nb
    · simp [h1, h2] at h
    · by_cases h3 : (nb == "None" || nb == "True" || nb == "False" || nb == "dependencies") = true
      · simp [h1, h2, h3] at h
      · have h3f : (nb == "None" || nb == "True" || nb == "False" || nb == "dependencies") = false :=
          Bool.eq_false_iff.mpr h3
        simp [h1, h2, h3f] at h
        exact ⟨h1, Bool.eq_false_iff.mpr h2, h3f, h⟩
  · simp [h1] at h

theorem is_local_branch_name_not_exists (branches : List (String × Nat)) (nb : String)
    (hfresh : lookupKV branches nb = none) :
    is_local_branch_name branches nb (some true) = false := by
  unfold is_local_branch_name
  by_cases h1 : gitBranchNameOk nb <;>
    by_cases h2 : is_ticket_name nb <;>
      by_cases h3 : (nb == "None" || nb == "True" || nb == "False" || nb == "dependencies") = true <;>
        simp [h1, h2, h3, hfresh]

theorem is_local_branch_name_exists_of_parts (branches : List (String × Nat)) (nb : String)
    (h1 : gitBranchNameOk nb = true) (h2 : is_ticket_name nb = false)
    (h3 : (nb == "None" || nb == "True" || nb == "False" || nb == "dependencies") = false)
    (hsome : (lookupKV branches nb).isSome = true) :
    is_local_branch_name branches nb (some true) = true := by
  unfold is_local_branch_name
  simp [h1, h2, h3, hsome]

theorem git_branch_ok (st : DevState) (name start : String) (st2 : DevState)
    (h : git_branch st name start = .ok st2) :
    ∃ c, st2 = { st with localBranches := setKV st.localBranches name c } := by
  unfold git_branch at h
  by_cases h1 : gitBranchNameOk name
  · by_cases h2 : (lookupKV st.localBranches name).isSome
    · simp [h1, h2] at h
    · cases hs : lookupKV st.localBranches start with
      | none => simp [h1, h2, hs] at h
      | some c =>
        simp [h1, h2, hs] at h
        exact ⟨c, h.symm⟩
  · simp [h1] at h

theorem git_branch_at_ok (st : DevState) (name : String) (c0 : Nat) (st2 : DevState)
    (h : git_branch_at st name c0 = .ok st2) :
    ∃ c, st2 = { st with localBranches := setKV st.localBranches name c } := by
  unfold git_branch_at at h
  by_cases h1 : gitBranchNameOk name
  · by_cases h2 : (lookupKV st.localBranches name).isSome
    · simp [h1, h2] at h
    · simp [h1, h2] at h
      exact ⟨c0, h.symm⟩
  · simp [h1] at h

theorem checkout_create_try_ok (ui : CheckoutUI) (st : DevState) (nb : String)
    (baseR rb? : Option String) (st2 : DevState)
    (h : checkout_create_try ui st nb baseR rb? = .ok st2) :
    ∃ c, st2 = { st with localBranches := setKV st.localBranches nb c } := by
  unfold checkout_create_try at h
  cases baseR with
  | none =>
    cases rb? with
    | none => exact git_branch_ok st nb MASTER_BRANCH st2 h
    | some rb =>
      by_cases hrb : is_remote_branch_name st rb (some true)
      · simp only [hrb, Bool.not_true, Bool.false_eq_true, if_false] at h
        exact git_branch_at_ok st nb _ st2 h
      · have hrbf : is_remote_branch_name st rb (some true) = false :=
          Bool.eq_false_iff.mpr hrb
        simp [hrbf] at h
  | some bb =>
    by_cases hbb : is_local_branch_name st.localBranches bb (some true)
    · simp only [hbb, Bool.not_true, Bool.false_eq_true, if_false] at h
      cases rb? with
      | none => exact git_branch_ok st nb bb st2 h
      | some rb =>
        by_cases hcf : ui.confirmFresh
        · simp only [hcf, Bool.not_true, Bool.false_eq_true, if_false] at h
          exact git_branch_ok st nb bb st2 h
        · have hcff : ui.confirmFresh = false := Bool.eq_false_iff.mpr hcf
          simp [hcff] at h
    · have hbbf : is_local_branch_name st.localBranches bb (some true) = false :=
        Bool.eq_false_iff.mpr hbb
      simp [hbbf] at h

theorem checkout_create_rollback_cases (ui : CheckoutUI) (st : DevState) (nb : String)
    (baseR rb? : Option String) :
    (∃ st2, checkout_create_rollback ui st nb baseR rb? = .ok st2 ∧
       ∃ c, st2 = { st with localBranches := setKV st.localBranches nb c }) ∨
    (∃ stE e, checkout_create_rollback ui st nb baseR rb? = .error (stE, e) ∧
       lookupKV stE.localBranches nb = none) := by
  unfold checkout_create_rollback
  cases htry : checkout_create_try ui st nb baseR rb? with
  | ok st2 =>
    left
    exact ⟨st2, rfl, checkout_create_try_ok ui st nb baseR rb? st2 htry⟩
  | error e2 =>
    right
    obtain ⟨st1, e⟩ := e2
    exact ⟨_, e, rfl, lookupKV_eraseKV_self _ _⟩

theorem git_branch_at_error (st : DevState) (name : String) (c0 : Nat)
    (e2 : DevState × DevError) (h : git_branch_at st name c0 = .error e2) :
    ∃ eM, e2 = (st, eM) := by
  unfold git_branch_at at h
  by_cases h1 : gitBranchNameOk name
  · by_cases h2 : (lookupKV st.localBranches name).isSome
    · simp [h1, h2] at h
      exact ⟨_, h.symm⟩
    · simp [h1, h2] at h
  · simp [h1] at h
    exact ⟨_, h.symm⟩

theorem local_branch_for_ticket_pull_cases (st : DevState) (bt : Nat) :
    (∃ stP bb, local_branch_for_ticket_pull st bt = .ok (stP, bb) ∧
       stP.merging = st.merging ∧ stP.dirty = st.dirty ∧
       stP.tracField = st.tracField) ∨
    (∃ e, local_branch_for_ticket_pull st bt = .error (st, e)) := by
  unfold local_branch_for_ticket_pull
  by_cases h1 : has_local_branch_for_ticket st bt
  · left
    simp only [h1, if_true]
    exact ⟨st, _, rfl, rfl, rfl, rfl⟩
  · have h1f : has_local_branch_for_ticket st bt = false := Bool.eq_false_iff.mpr h1
    simp only [h1f, Bool.false_eq_true, if_false]
    by_cases h2 : st.tracTickets.contains bt
    · simp only [h2, Bool.not_true, Bool.false_eq_true, if_false]
      cases h3 : lookupKV st.tracField bt with
      | none =>
        simp only [h3]
        right
        exact ⟨_, rfl⟩
      | some rb =>
        simp only [h3]
        cases h4 : lookupKV st.remoteRefs rb with
        | none =>
          simp only [h4]
          right
          exact ⟨_, rfl⟩
        | some c =>
          simp only [h4]
          cases h5 : git_branch_at st (new_local_branch_for_ticket st.localBranches bt) c with
          | ok st1 =>
            simp only [h5]
            left
            obtain ⟨cc, hshape⟩ := git_branch_at_ok st _ c st1 h5
            refine ⟨set_local_branch_for_ticket st1 bt
              (some (new_local_branch_for_ticket st.localBranches bt)),
              new_local_branch_for_ticket st.localBranches bt, rfl, ?_, ?_, ?_⟩
            · simp [set_local_branch_for_ticket, hshape]
            · simp [set_local_branch_for_ticket, hshape]
            · simp [set_local_branch_for_ticket, hshape]
          | error e2 =>
            obtain ⟨eM, he2⟩ := git_branch_at_error st _ c e2 h5
            subst he2
            simp only [h5]
            right
            exact ⟨eM, rfl⟩
    · have h2f : st.tracTickets.contains bt = false := Bool.eq_false_iff.mpr h2
      simp only [h2f, Bool.not_false, if_true]
      right
      exact ⟨_, rfl⟩

theorem checkout_branch_ne_error (rsel : ResetSel) (csel : CleanSel) (st : DevState)
    (b : String) (st' : DevState) (e : DevError)
    (hex : is_local_branch_name st.localBranches b (some true) = true)
    (hm : st.merging = false) (hd : st.dirty = false) :
    ¬ checkout_branch rsel csel st b = .error (st', e) := by
  rw [checkout_branch_clean rsel csel st b hex hm hd]
  simp

theorem checkout_create_finish_error_fresh (ui : CheckoutUI) (st : DevState)
    (ticket : Nat) (nb : String) (baseR : Option String) (deps : List Nat)
    (hval : gitBranchNameOk nb = true) (hnt : is_ticket_name nb = false)
    (hforb : (nb == "None" || nb == "True" || nb == "False" || nb == "dependencies") = false)
    (hm : st.merging = false) (hd : st.dirty = false) :
    ∀ st' e, checkout_create_finish ui st ticket nb baseR deps = .error (st', e) →
      lookupKV st'.localBranches nb = none := by
  intro st' e herr
  unfold checkout_create_finish at herr
  rcases checkout_create_rollback_cases ui st nb baseR (lookupKV st.tracField ticket) with
    ⟨st2, hok, c, hshape⟩ | ⟨stE, eE, herr2, hlb⟩
  · rw [hok] at herr
    subst hshape
    have hsome : (lookupKV (setKV st.localBranches nb c) nb).isSome = true := by
      rw [lookupKV_setKV_self]
      rfl
    have hex5 := is_local_branch_name_exists_of_parts
      (setKV st.localBranches nb c) nb hval hnt hforb hsome
    by_cases hde : deps.isEmpty
    · simp only [hde, if_true] at herr
      exact absurd herr (checkout_branch_ne_error ui.rsel ui.csel _ nb st' e hex5 hm hd)
    · have hdef : deps.isEmpty = false := Bool.eq_false_iff.mpr hde
      simp only [hdef, Bool.false_eq_true, if_false] at herr
      exact absurd herr (checkout_branch_ne_error ui.rsel ui.csel _ nb st' e hex5 hm hd)
  · rw [herr2] at herr
    simp at herr
    rw [← herr.1]
    exact hlb

/-- C6: a `checkout_ticket` call that takes the branch-creation path
(the requested branch name does not exist yet) and fails - invalid
base, unset or dangling remote branch field, a declined confirmation, a
backend failure - leaves no local branch of that name behind: the
rollback handler of lines 508-512 deletes the partially created branch
before re-raising, and every earlier failure precedes the creation.
(The clean working-tree hypotheses restrict the statement to failures
of the creation phase itself: with a dirty tree the final switch could
fail after the branch is fully created and registered, which the source
does not roll back.) -/
theorem claim_C6_checkout_create_rollback (ui : CheckoutUI) (st : DevState)
    (ticket : Nat) (nb : String) (base : BaseArg)
    (hnb : is_local_branch_name st.localBranches nb (some false) = true)
    (hm : st.merging = false) (hd : st.dirty = false) :
    ∀ st' e, checkout_ticket ui st ticket (some nb) base = .error (st', e) →
      lookupKV st'.localBranches nb = none := by
  intro st' e herr
  obtain ⟨hval, hnt, hforb, hfresh⟩ := is_local_branch_name_parts st.localBranches nb hnb
  have hnotex := is_local_branch_name_not_exists st.localBranches nb hfresh
  unfold checkout_ticket at herr
  by_cases ht : st.tracTickets.contains ticket
  · simp only [ht, Bool.not_true, Bool.false_eq_true, if_false, hnotex] at herr
    unfold checkout_ticket_create at herr
    cases base with
    | emptyStr =>
      exact checkout_create_finish_error_fresh ui st ticket nb none _
        hval hnt hforb hm hd st' e herr
    | noneArg =>
      cases hct : current_ticket st with
      | none =>
        simp only [hct] at herr
        simp at herr
        rw [← herr.1]
        exact hfresh
      | some bt =>
        simp only [hct] at herr
        rcases local_branch_for_ticket_pull_cases st bt with
          ⟨stP, bb, hpull, hmP, hdP, -⟩ | ⟨eP, hpull⟩
        · simp only [hpull] at herr
          have hmP' : stP.merging = false := by rw [hmP]; exact hm
          have hdP' : stP.dirty = false := by rw [hdP]; exact hd
          exact checkout_create_finish_error_fresh ui stP ticket nb (some bb) [bt]
            hval hnt hforb hmP' hdP' st' e herr
        · simp only [hpull] at herr
          simp at herr
          rw [← herr.1]
          exact hfresh
    | ref s =>
      cases hts : ticket_from_ticket_name s with
      | some bt =>
        simp only [hts] at herr
        rcases local_branch_for_ticket_pull_cases st bt with
          ⟨stP, bb, hpull, hmP, hdP, -⟩ | ⟨eP, hpull⟩
        · simp only [hpull] at herr
          have hmP' : stP.merging = false := by rw [hmP]; exact hm
          have hdP' : stP.dirty = false := by rw [hdP]; exact hd
          exact checkout_create_finish_error_fresh ui stP ticket nb (some bb) [bt]
            hval hnt hforb hmP' hdP' st' e herr
        · simp only [hpull] at herr
          simp at herr
          rw [← herr.1]
          exact hfresh
      | none =>
        simp only [hts] at herr
        exact checkout_create_finish_error_fresh ui st ticket nb (some s) _
          hval hnt hforb hm hd st' e herr
  · have htf : st.tracTickets.contains ticket = false := Bool.eq_false_iff.mpr ht
    simp only [htf, Bool.not_false, if_true] at herr
    simp at herr
    rw [← herr.1]
    exact hfresh

theorem claim_C6_witness :
    checkout_ticket c6UI c6State 1 (some "ticket/1") (.ref "master") =
      .error (c6State, .operationCancelled "user requested") ∧
    lookupKV c6State.localBranches "ticket/1" = none := by
  have hres : checkout_ticket c6UI c6State 1 (some "ticket/1") (.ref "master") =
      .error (c6State, .operationCancelled "user requested") := rfl
  exact ⟨hres, claim_C6_checkout_create_rollback c6UI c6State 1 "ticket/1" (.ref "master")
    (by decide) rfl rfl c6State (.operationCancelled "user requested") hres⟩

/-- C8: the code violates the never-lists-itself invariant.  Evaluating
`checkout(ticket=1, branch="fresh", base="#1")` in a state where ticket
1 is bound to the existing local branch `ticket/1` succeeds (lines
460-467 resolve the ticket base and set `dependencies = [base]` with no
self-check, unlike `merge`, line 2133-2134) and records `[1]` as the
dependency list of ticket 1 - the ticket lists itself. -/
theorem claim_C8_checkout_records_self_dependency :
    (checkout_ticket c8UI c8State 1 (some "fresh") (.ref "#1")).toOption.map
        (fun st' => dependencies_for_ticket st' 1) = some [1] ∧
    (1 : Nat) ∈ [1] := by
  constructor
  · rfl
  · simp

theorem claim_C2_witness :
    push c2Anc c2Ans
        { c2State with localBranches := [("ticket/1", 1)] }
        (some 1) "ticket/1" "u/doctest/ticket/1" false =
      .ok ({ c2State with
          localBranches := [("ticket/1", 1)]
          remoteOf := setKV c2State.remoteOf "ticket/1" "u/doctest/ticket/1" }, false) :=
  (claim_C2_push_nothing_to_push c2Anc c2Ans
      { c2State with localBranches := [("ticket/1", 1)] }
      1 "ticket/1" "u/doctest/ticket/1" 1 1 rfl rfl rfl rfl rfl rfl).1 rfl


end SageDev

